import Mathlib

/-!
kalibrate: the offset measurement, the sources and `main`

A shallow embedding of `offset_detect` (src/src/offset.cc) and of the driver
calls it makes, of `tune`, `fill` and the decimation constructor of the
sample sources (src/src/xtrx_source.cc, src/src/soapy_source.cc), and of the
device part of `main` (src/src/kal.cc), followed by their properties.

Conventions of the embedding.

* `float` and `double` values are rationals; infinities, NaN, overflow and
  subnormal numbers are outside the model. Arithmetic on `double` is exact.
  Where the source narrows a `double` to a `float` and then compares the
  result or takes its ceiling (`sps`, line 78, and `offset`, line 100 of
  offset.cc), the narrowing is the rounding `to_float` to a 24-bit
  significand, nearest value, ties to even. The narrowing of the result of
  `avg` to the `float` `avg_offset` (line 126) is not modelled.
* `unsigned int` values are naturals reduced modulo `2 ^ 32` wherever the
  source does arithmetic on them.
* The SoapySDR device is an abstract state machine: every driver call that
  can change the device takes the device state and returns the new one.
* `offset_detect` declares `count` and `offsets` without initialising them.
  Their indeterminate initial contents are parameters (`count0`, `offsets0`).
* A store `offsets[count] = offset` is logged as an event carrying its index.
  A store whose index is outside the array leaves the array itself as it was.
-/

namespace Kalibrate

/-! ## Constants of offset.cc -/

/-- Line 46: `static const unsigned int AVG_COUNT = 100;` -/
def AVG_COUNT : Nat := 100

/-- Line 47: `static const unsigned int AVG_THRESHOLD = (AVG_COUNT / 10);` -/
def AVG_THRESHOLD : Nat := AVG_COUNT / 10

/-- Line 48: `static const float OFFSET_MAX = 40e3;` -/
def OFFSET_MAX : ℚ := 40000

/-- Line 56: `#define GSM_RATE (1625000.0 / 6.0)` -/
def GSM_RATE : ℚ := 1625000 / 6

/-- Number of values of an `unsigned int`. -/
def UINT_RANGE : Nat := 2 ^ 32

/-! ## Library functions used by offset.cc -/

/-- The C function `fabs`. -/
def fabs (x : ℚ) : ℚ := if x < 0 then -x else x

/-- Rounding of a rational to the nearest integer, a tie going to the even
one. -/
def round_half_even (q : ℚ) : ℤ :=
  if q - ⌊q⌋ < 1 / 2 then ⌊q⌋
  else if 1 / 2 < q - ⌊q⌋ then ⌊q⌋ + 1
  else if ⌊q⌋ % 2 = 0 then ⌊q⌋ else ⌊q⌋ + 1

/-- The conversion of a `double` value to `float` (IEEE 754 binary32, round to
nearest, ties to even): with `2 ^ e <= |x| < 2 ^ (e + 1)` the result is the
multiple of `2 ^ (e - 23)` nearest to `x`. The exponent is not bounded. -/
def to_float (x : ℚ) : ℚ :=
  (round_half_even (x / 2 ^ (Int.log 2 |x| - 23)) : ℚ) * 2 ^ (Int.log 2 |x| - 23)

/-- The conversion `(unsigned int)ceil(x)` of line 79. The source converts a
double; a value outside the range of `unsigned int` is reduced modulo
`2 ^ 32` here. -/
def ceil_to_unsigned (x : ℚ) : Nat := (Int.toNat ⌈x⌉) % UINT_RANGE

/-- Modelled from the spec: `sort` of util.cc, which is not among the source
files. The spec says "sort the Measurement Set by value"; the call is
`sort(offsets, AVG_COUNT)`, which orders the first `len` entries of `b`
ascending, in place. -/
def sort (b : List ℚ) (len : Nat) : List ℚ :=
  (b.take len).insertionSort (fun x y => x ≤ y) ++ b.drop len

/-- Modelled from the spec: `avg` of util.cc, which is not among the source
files. The spec says "compute the mean ... of the remaining (trimmed)
values"; the call is `avg(data, len, &stddev)`, the mean of the first `len`
entries of `data`. The standard deviation it also writes needs a square root
and is left out: it is only printed. -/
def avg (data : List ℚ) (len : Nat) : ℚ :=
  (data.take len).sum / (len : ℚ)

/-! ## The driver and the detector -/

/-- The SoapySDR calls made by `offset_detect`, as functions on a device state
`σ`; `β` is the content of the sample buffer after a read. `setupStream` and
`readStream` return their `int` result first. -/
structure SoapySDRDevice (σ β : Type) where
  getSampleRate : σ → ℚ
  setupStream : σ → Int × σ
  activateStream : σ → σ
  readStream : σ → Nat → Int × β × σ
  deactivateStream : σ → σ
  closeStream : σ → σ
  getFrequencyCorrection : σ → ℚ
  getFrequency : σ → ℚ

/-- The detector `fcch_detector` (its source is not among the files): it is
built from the sample rate, and `scan(buff, len, &offset, &consumed)` either
finds a burst and gives the raw frequency estimate, or finds none. -/
abbrev Detector (β : Type) := ℚ → β → Nat → Option ℚ

/-- What `offset_detect` does, in program order. -/
inductive Event where
  | setupStream (rc : Int)
  | setupStreamError
  | activateStream
  | readStream (numElems : Nat)
  | scan (len : Nat)
  | store (index : Nat) (value : ℚ)
  | deactivateStream
  | closeStream
  | sortOffsets
  | avgOffsets
  | getFrequencyCorrection
  | getFrequency
  deriving DecidableEq

/-! ## offset_detect -/

/-- The measurement locals of `offset_detect`: the array `offsets`, the
accepted count `count` and the miss counter `notfound`. -/
structure Measurements where
  offsets : List ℚ
  count : Nat
  notfound : Int

/-- The baseband frequency error of line 100: `offset = offset - GSM_RATE / 4`.
The difference is a `double` and the assignment narrows it to the `float`
variable `offset`. -/
def baseband_error (raw : ℚ) : ℚ := to_float (raw - GSM_RATE / 4)

/-- Lines 96 to 115: what one result of `detector->scan` does to the
measurement locals, with the stores it makes. -/
def scan_result (m : Measurements) (found : Option ℚ) : Measurements × List Event :=
  match found with
  | some raw =>
    if fabs (baseband_error raw) < OFFSET_MAX then
      ({ m with
          offsets := m.offsets.set m.count (baseband_error raw)
          count := (m.count + 1) % UINT_RANGE },
        [Event.store m.count (baseband_error raw)])
    else
      (m, [])
  | none => ({ m with notfound := m.notfound + 1 }, [])

/-- The statistics of lines 125 to 128. -/
structure Stats where
  sorted : List ℚ
  avg_offset : ℚ
  min : ℚ
  max : ℚ

/-- Lines 125 to 128: sort the whole array, average the entries from
`AVG_THRESHOLD` on, `AVG_COUNT - 2 * AVG_THRESHOLD` of them, and take `min`
and `max` at the two ends of that range. -/
def construct_stats (offsets : List ℚ) : Stats :=
  let sorted := sort offsets AVG_COUNT
  { sorted := sorted
    avg_offset := avg (sorted.drop AVG_THRESHOLD) (AVG_COUNT - 2 * AVG_THRESHOLD)
    min := sorted.getD AVG_THRESHOLD 0
    max := sorted.getD (AVG_COUNT - AVG_THRESHOLD - 1) 0 }

/-- Line 78: `sps = sample_rate / GSM_RATE`, a `double` quotient narrowed to
the `float` variable `sps`. -/
def samples_per_symbol (sample_rate : ℚ) : ℚ := to_float (sample_rate / GSM_RATE)

/-- Lines 78 and 79: the window length for a sample rate,
`(unsigned int)ceil((12 * 8 * 156.25 + 156.25) * sps)`. -/
def window_length (sample_rate : ℚ) : Nat :=
  ceil_to_unsigned ((12 * 8 * 156.25 + 156.25) * samples_per_symbol sample_rate)

/-- The `unsigned int` product `s_len * 4` of lines 87, 93 and 96. -/
def window_request (s_len : Nat) : Nat := (s_len * 4) % UINT_RANGE

/-- Everything a run of `offset_detect` leaves behind: its return value, the
window length, what the detector scan reported (`none` for no burst, else the
raw estimate), the measurement locals after the scan, the statistics, the two
values read back from the device, the ppm figure, the device state and the
log of what was done. -/
structure Run (σ : Type) where
  ret : Int
  s_len : Nat
  found : Option ℚ
  measured : Measurements
  stats : Stats
  current_correction : ℚ
  current_frequency : ℚ
  total_ppm : ℚ
  sdr : σ
  trace : List Event

/-- The function `offset_detect` of offset.cc, lines 54 to 144. -/
def offset_detect {σ β : Type} (D : SoapySDRDevice σ β) (detector : Detector β)
    (count0 : Nat) (offsets0 : List ℚ) (sdr : σ) : Run σ :=
  let sample_rate := D.getSampleRate sdr
  let s_len := window_length sample_rate
  let setup := D.setupStream sdr
  let setupEvents :=
    if setup.1 ≠ 0 then [Event.setupStream setup.1, Event.setupStreamError]
    else [Event.setupStream setup.1]
  let sdr2 := D.activateStream setup.2
  let rd := D.readStream sdr2 (window_request s_len)
  let found := detector sample_rate rd.2.1 (window_request s_len)
  let step := scan_result { offsets := offsets0, count := count0, notfound := 0 } found
  let sdr4 := D.closeStream (D.deactivateStream rd.2.2)
  let st := construct_stats step.1.offsets
  let current_correction := D.getFrequencyCorrection sdr4
  let current_frequency := D.getFrequency sdr4
  { ret := 0
    s_len := s_len
    found := found
    measured := step.1
    stats := st
    current_correction := current_correction
    current_frequency := current_frequency
    total_ppm := current_correction - (st.avg_offset / current_frequency) * 1000000
    sdr := sdr4
    trace := setupEvents ++ [Event.activateStream, Event.readStream (window_request s_len),
      Event.scan (window_request s_len)] ++ step.2 ++
      [Event.deactivateStream, Event.closeStream, Event.sortOffsets, Event.avgOffsets,
       Event.getFrequencyCorrection, Event.getFrequency] }

/-! ## A simulated device and detector, for concrete runs -/

/-- A simulated device: fixed sample rate, frequency correction and centre
frequency, a stream setup that returns `rc`, a read that delivers everything
asked for. Its state counts the driver calls made so far. -/
def simDevice (rate corr freq : ℚ) (rc : Int) : SoapySDRDevice Nat Unit where
  getSampleRate := fun _ => rate
  setupStream := fun s => (rc, s + 1)
  activateStream := fun s => s + 1
  readStream := fun s n => ((n : Int), (), s + 1)
  deactivateStream := fun s => s + 1
  closeStream := fun s => s + 1
  getFrequencyCorrection := fun _ => corr
  getFrequency := fun _ => freq

/-- A simulated detector that reports the same scan result on every window. -/
def simDetector (result : Option ℚ) : Detector Unit := fun _ _ _ => result

/-- An `offsets` array whose 100 slots all hold zero. -/
def zeroOffsets : List ℚ := List.replicate 100 0

/-- An `offsets` array holding 99, 98, ..., 1, 0 in that order. -/
def rampOffsets : List ℚ := ((List.range 100).map (fun n : Nat => (n : ℚ))).reverse

/-- The store events of a trace. -/
def stores (t : List Event) : List Event :=
  t.filter (fun e => match e with
    | Event.store _ _ => true
    | _ => false)

/-- The detector attempts of a trace: its scan events. -/
def attempts (t : List Event) : List Event :=
  t.filter (fun e => match e with
    | Event.scan _ => true
    | _ => false)

/-! ## tune (xtrx_source.cc lines 135 to 152, soapy_source.cc lines 116 to 133) -/

/-- The part of a source object that `tune` reads and writes: the device
behind the handle `dev` and the member `m_center_freq`. The mutex that `tune`
takes and releases is not modelled. -/
structure Source (δ : Type) where
  dev : δ
  m_center_freq : ℚ

/-- What a call of `tune` leaves behind: its return value, the source object,
the frequencies passed to the driver's tune call, and the frequencies for
which "Tuning to ... Hz failed!" was printed. -/
structure TuneRun (δ : Type) where
  ret : Int
  source : Source δ
  calls : List ℚ
  failures : List ℚ

/-- The method `tune` of `xtrx_source` and of `soapy_source` (the two bodies
are the same text). The driver call `xtrx_tune(dev, XTRX_TUNE_RX_FDD, freq,
&actual)` is a function from the device state and the frequency to its `int`
result and the new device state. -/
def tune {δ : Type} (xtrx_tune : δ → ℚ → Int × δ) (s : Source δ) (freq : ℚ) : TuneRun δ :=
  if freq ≠ s.m_center_freq then
    if (xtrx_tune s.dev freq).1 < 0 then
      { ret := 1
        source := { dev := (xtrx_tune s.dev freq).2, m_center_freq := s.m_center_freq }
        calls := [freq]
        failures := [freq] }
    else
      { ret := 1
        source := { dev := (xtrx_tune s.dev freq).2, m_center_freq := freq }
        calls := [freq]
        failures := [] }
  else
    { ret := 1, source := s, calls := [], failures := [] }

/-- A simulated tuner: its state is the frequency the hardware is tuned to;
a tune call succeeds (result 0) when `ok` holds and fails (result -1, hardware
left alone) otherwise. -/
def simTuner (ok : Bool) : ℚ → ℚ → Int × ℚ :=
  fun hw freq => if ok then (0, freq) else (-1, hw)

/-! ## The decimation constructor (xtrx_source.cc lines 66 to 81) -/

/-- The value the constructor `xtrx_source(unsigned int decimation, long int,
int)` stores in `m_decimation`, lines 74 to 78. The member is declared in
xtrx_source.h, which is not among the files; it is taken to be an
`unsigned int`, like the parameter. `~1` converted to `unsigned int` is
`2 ^ 32 - 2`. -/
def xtrx_source_m_decimation (decimation : Nat) : Nat :=
  let m0 := decimation &&& (UINT_RANGE - 2)
  let m1 := if m0 < 4 then 4 else m0
  if m1 > 256 then 256 else m1

/-! ## fill (xtrx_source.cc lines 229 to 295, soapy_source.cc lines 210 to 276) -/

/-- What the outside world answers during one call of `fill`: the result and
`ri.out_samples` of the k-th `xtrx_recv_sync_ex`, and the available count the
k-th `m_cb->poke` reports. -/
structure FillEnv where
  recv : Nat → Int × Nat
  poke : Nat → Nat

/-- What `fill` does, in program order: a receive call with its result; a
failed `assert(avail >= csm)`; a commit, which is a `poke` that reported
`avail` followed by `memcpy` and `wrote(csm)`; the loop step
`num_samples -= 8192` with the value of `num_samples` before it. -/
inductive FillEvent where
  | recv (rc : Int)
  | assertFailed (avail csm : Nat)
  | commit (avail csm : Nat)
  | sub (before : Nat)
  deriving DecidableEq

/-- What a call of `fill` leaves behind: the return value (`none` when an
assertion failed and the program was aborted), the overrun count, and the
log. -/
structure FillRun where
  ret : Option Int
  overruns : Nat
  log : List FillEvent

/-- A run preceded by the events of the iteration before it. -/
def FillRun.after (events : List FillEvent) (rest : FillRun) : FillRun :=
  { rest with log := events ++ rest.log }

/-- The loop of `fill`, lines 243 to 266, from its k-th iteration on. The
loop step `num_samples -= 8192` is `unsigned int` arithmetic. -/
def fill_loop (env : FillEnv) (k : Nat) (num_samples : Nat) (overruns : Nat) : FillRun :=
  if (env.recv k).1 < 0 then
    { ret := some (-1), overruns := overruns, log := [FillEvent.recv (env.recv k).1] }
  else if env.poke k < (if num_samples > 8192 then 8192 else num_samples) then
    { ret := none
      overruns := overruns
      log := [FillEvent.recv (env.recv k).1,
        FillEvent.assertFailed (env.poke k) (if num_samples > 8192 then 8192 else num_samples)] }
  else if h : num_samples ≤ (if num_samples > 8192 then 8192 else num_samples) then
    { ret := some 0
      overruns := if (env.recv k).2 ≠ 8192 then (overruns + 1) % UINT_RANGE else overruns
      log := [FillEvent.recv (env.recv k).1,
        FillEvent.commit (env.poke k) (if num_samples > 8192 then 8192 else num_samples)] }
  else
    FillRun.after [FillEvent.recv (env.recv k).1,
        FillEvent.commit (env.poke k) (if num_samples > 8192 then 8192 else num_samples),
        FillEvent.sub num_samples]
      (fill_loop env (k + 1) ((num_samples + UINT_RANGE - 8192) % UINT_RANGE)
        (if (env.recv k).2 ≠ 8192 then (overruns + 1) % UINT_RANGE else overruns))
termination_by num_samples
decreasing_by
  simp only [UINT_RANGE]
  split_ifs at h <;> omega

/-- The method `fill` of `xtrx_source` and of `soapy_source` (the two bodies
are the same text), with the `#if 1` branch that is compiled. -/
def fill (env : FillEnv) (num_samples : Nat) : FillRun :=
  fill_loop env 0 num_samples 0

/-- The number of receive calls in a log of `fill`. -/
def recv_calls : List FillEvent → Nat
  | [] => 0
  | FillEvent.recv _ :: rest => recv_calls rest + 1
  | _ :: rest => recv_calls rest

/-- The total number of samples committed to the ring buffer in a log of
`fill`. -/
def committed : List FillEvent → Nat
  | [] => 0
  | FillEvent.commit _ csm :: rest => csm + committed rest
  | _ :: rest => committed rest

/-- A simulated environment for `fill`: every receive succeeds and delivers
8192 samples, every `poke` reports 262144 free samples. -/
def simFillEnv : FillEnv where
  recv := fun _ => (0, 8192)
  poke := fun _ => 262144

/-! ## main (kal.cc), from the device enumeration of line 262 on -/

/-- The C function `strcmp`: zero exactly when the two strings are equal. -/
def strcmp (a b : String) : Int :=
  if a = b then 0 else if a < b then -1 else 1

/-- The antenna loop of `main`, lines 297 to 304: the value of `antenna_found`
after the loop, from its value before. `antenna` is `none` for a NULL
pointer. -/
def antenna_loop (antenna : Option String) : List String → Bool → Bool
  | [], found => found
  | name :: rest, found =>
    match antenna with
    | some a => antenna_loop antenna rest (if strcmp name a ≠ 0 then true else found)
    | none => antenna_loop antenna rest found

/-- The flag `antenna_found` as `main` tests it at line 333: the loop of lines
297 to 304 started from `false`, then lines 307 to 310, which set the flag
when no antenna was requested. -/
def antenna_found (names : List String) (antenna : Option String) : Bool :=
  match antenna with
  | none => true
  | some a => antenna_loop (some a) names false

/-- The options of `main` that the device part reads. -/
structure MainArgs where
  antenna : Option String
  gain : ℚ
  ppm_error : ℚ
  bts_scan : Bool

/-- What the device answers during one invocation of `main`: the number of
devices enumerated, whether `SoapySDRDevice_make` gave a device, the antenna
names listed, the result of each setter, and the results of `offset_detect`
and `c0_detect`. -/
structure DeviceReplies where
  n_devices : Nat
  make_ok : Bool
  antennas : List String
  setBandwidth : Int
  setSampleRate : Int
  setGain : Int
  setFrequencyCorrection : Int
  setFrequency : Int
  offset_detect : Int
  c0_detect : Int

/-- The steps of `main` that matter here, in program order. -/
inductive MainStep where
  | setBandwidth
  | setSampleRate
  | antennaNotFound
  | setGain
  | setFrequencyCorrection
  | setFrequency
  | offset_detect
  | c0_detect
  deriving DecidableEq

/-- The value of `EXIT_FAILURE`. -/
def EXIT_FAILURE : Int := 1

/-- The function `main` of kal.cc from line 262 to its end, after the options
are parsed: its exit status and the steps it took. -/
def main_device (a : MainArgs) (d : DeviceReplies) : Int × List MainStep :=
  if d.n_devices = 0 then (EXIT_FAILURE, [])
  else if d.make_ok = false then (EXIT_FAILURE, [])
  else if d.setBandwidth ≠ 0 then (EXIT_FAILURE, [MainStep.setBandwidth])
  else if d.setSampleRate ≠ 0 then
    (EXIT_FAILURE, [MainStep.setBandwidth, MainStep.setSampleRate])
  else if antenna_found d.antennas a.antenna = false then
    (EXIT_FAILURE, [MainStep.setBandwidth, MainStep.setSampleRate, MainStep.antennaNotFound])
  else if a.ppm_error ≠ 0 ∧ d.setFrequencyCorrection ≠ 0 then
    (EXIT_FAILURE, [MainStep.setBandwidth, MainStep.setSampleRate]
      ++ (if a.gain ≠ 0 then [MainStep.setGain] else [])
      ++ [MainStep.setFrequencyCorrection])
  else if a.bts_scan = false then
    if d.setFrequency ≠ 0 then
      (EXIT_FAILURE, [MainStep.setBandwidth, MainStep.setSampleRate]
        ++ (if a.gain ≠ 0 then [MainStep.setGain] else [])
        ++ (if a.ppm_error ≠ 0 then [MainStep.setFrequencyCorrection] else [])
        ++ [MainStep.setFrequency])
    else
      (d.offset_detect, [MainStep.setBandwidth, MainStep.setSampleRate]
        ++ (if a.gain ≠ 0 then [MainStep.setGain] else [])
        ++ (if a.ppm_error ≠ 0 then [MainStep.setFrequencyCorrection] else [])
        ++ [MainStep.setFrequency, MainStep.offset_detect])
  else
    (d.c0_detect, [MainStep.setBandwidth, MainStep.setSampleRate]
      ++ (if a.gain ≠ 0 then [MainStep.setGain] else [])
      ++ (if a.ppm_error ≠ 0 then [MainStep.setFrequencyCorrection] else [])
      ++ [MainStep.c0_detect])

/-! ## Auxiliary facts -/

theorem fabs_eq_abs (x : ℚ) : fabs x = |x| := by
  unfold fabs
  split_ifs with h
  · exact (abs_of_neg h).symm
  · exact (abs_of_nonneg (not_lt.mp h)).symm

theorem round_half_even_near (q : ℚ) : |(round_half_even q : ℚ) - q| ≤ 1 / 2 := by
  have h1 := Int.floor_le q
  have h2 := Int.lt_floor_add_one q
  unfold round_half_even
  rw [abs_le]
  split_ifs with h3 h4 h5
  · constructor <;> linarith
  · push_cast; constructor <;> linarith
  · constructor <;> linarith
  · push_cast; constructor <;> linarith

theorem round_half_even_eq (q : ℚ) (m : ℤ) (h : |q - m| < 1 / 2) : round_half_even q = m := by
  have hn := round_half_even_near q
  rw [abs_lt] at h
  rw [abs_le] at hn
  have h1 : ((round_half_even q - m : ℤ) : ℚ) < 1 := by push_cast; linarith
  have h2 : (-1 : ℚ) < ((round_half_even q - m : ℤ) : ℚ) := by push_cast; linarith
  have h3 : round_half_even q - m < 1 := by exact_mod_cast h1
  have h4 : -1 < round_half_even q - m := by exact_mod_cast h2
  omega

theorem log_two_eq (x : ℚ) (e : ℤ) (h1 : (2 : ℚ) ^ e ≤ x) (h2 : x < 2 ^ (e + 1)) :
    Int.log 2 x = e := by
  have hx : 0 < x := lt_of_lt_of_le (by positivity) h1
  apply le_antisymm
  · have := (Int.lt_zpow_iff_log_lt (b := 2) (by norm_num) hx (x := e + 1)).mp
      (by exact_mod_cast h2)
    omega
  · exact (Int.zpow_le_iff_le_log (b := 2) (by norm_num) hx).mp (by exact_mod_cast h1)

theorem to_float_eq (x : ℚ) (e m : ℤ) (h1 : (2 : ℚ) ^ e ≤ |x|) (h2 : |x| < 2 ^ (e + 1))
    (h : |x / 2 ^ (e - 23) - m| < 1 / 2) : to_float x = m * 2 ^ (e - 23) := by
  unfold to_float
  rw [log_two_eq |x| e h1 h2, round_half_even_eq _ m h]

theorem to_float_zero : to_float 0 = 0 := by
  simp [to_float, round_half_even]

theorem to_float_error (x : ℚ) : |to_float x - x| ≤ |x| / 2 ^ 24 := by
  by_cases hx : x = 0
  · rw [hx, to_float_zero]; simp
  have hpos : 0 < |x| := abs_pos.mpr hx
  have hlog := Int.zpow_log_le_self (b := 2) (by norm_num) hpos
  have hu : (0 : ℚ) < 2 ^ (Int.log 2 |x| - 23) := by positivity
  have hn := round_half_even_near (x / 2 ^ (Int.log 2 |x| - 23))
  unfold to_float
  have e1 : (round_half_even (x / 2 ^ (Int.log 2 |x| - 23)) : ℚ) * 2 ^ (Int.log 2 |x| - 23) - x
      = ((round_half_even (x / 2 ^ (Int.log 2 |x| - 23)) : ℚ) - x / 2 ^ (Int.log 2 |x| - 23))
        * 2 ^ (Int.log 2 |x| - 23) := by
    field_simp
  rw [e1, abs_mul, abs_of_pos hu]
  have e2 : (2 : ℚ) ^ (Int.log 2 |x| - 23) = 2 ^ (Int.log 2 |x|) / 2 ^ 23 := by
    rw [zpow_sub₀ (by norm_num)]; norm_num
  have hle : (2 : ℚ) ^ (Int.log 2 |x| - 23) ≤ |x| / 2 ^ 23 := by
    rw [e2]
    push_cast at hlog
    exact div_le_div_of_nonneg_right hlog (by positivity)
  calc |(round_half_even (x / 2 ^ (Int.log 2 |x| - 23)) : ℚ) - x / 2 ^ (Int.log 2 |x| - 23)|
        * 2 ^ (Int.log 2 |x| - 23)
      ≤ 1 / 2 * (|x| / 2 ^ 23) := mul_le_mul hn hle hu.le (by norm_num)
    _ = |x| / 2 ^ 24 := by ring

theorem baseband_error_100kHz : baseband_error 100000 = 16533333 / 512 := by
  have e : (100000 : ℚ) - GSM_RATE / 4 = 96875 / 3 := by norm_num [GSM_RATE]
  unfold baseband_error
  rw [e, to_float_eq _ 14 16533333 (by norm_num [abs_of_pos]) (by norm_num [abs_of_pos])
    (by rw [abs_lt]; norm_num)]
  norm_num

theorem baseband_error_boundary : baseband_error (14186667 / 512) = -40000 := by
  have e : (14186667 / 512 : ℚ) - GSM_RATE / 4 = -61439999 / 1536 := by norm_num [GSM_RATE]
  unfold baseband_error
  rw [e, to_float_eq _ 15 (-10240000) (by rw [le_abs]; right; norm_num)
    (by rw [abs_lt]; norm_num) (by rw [abs_lt]; norm_num)]
  norm_num

theorem baseband_error_quarter_rate : baseband_error (203125 / 3) = 0 := by
  have e : (203125 / 3 : ℚ) - GSM_RATE / 4 = 0 := by norm_num [GSM_RATE]
  unfold baseband_error
  rw [e, to_float_zero]

theorem baseband_error_50kHz : baseband_error (353125 / 3) = 50000 := by
  have e : (353125 / 3 : ℚ) - GSM_RATE / 4 = 50000 := by norm_num [GSM_RATE]
  unfold baseband_error
  rw [e, to_float_eq _ 15 12800000 (by norm_num [abs_of_pos]) (by norm_num [abs_of_pos])
    (by rw [abs_lt]; norm_num)]
  norm_num

theorem sorted_getElem_le (L : List ℚ) (h : L.Sorted (fun x y => x ≤ y)) (i j : Nat)
    (hij : i ≤ j) (hj : j < L.length) : L[i] ≤ L[j] := by
  rcases Nat.eq_or_lt_of_le hij with rfl | hlt
  · exact le_refl _
  · exact (List.pairwise_iff_getElem.mp h) i j (by omega) hj hlt

theorem mem_window_iff (L : List ℚ) (a n : Nat) (x : ℚ) :
    x ∈ (L.drop a).take n ↔ ∃ i, ∃ h : i < L.length, a ≤ i ∧ i < a + n ∧ L[i] = x := by
  constructor
  · intro hx
    obtain ⟨k, hk, rfl⟩ := List.mem_iff_getElem.mp hx
    have hk2 : k < n ∧ k < L.length - a := by
      simpa [List.length_take, List.length_drop] using hk
    refine ⟨a + k, by omega, by omega, by omega, ?_⟩
    simp [List.getElem_take, List.getElem_drop]
  · rintro ⟨i, hi, hai, hin, rfl⟩
    refine List.mem_iff_getElem.mpr ⟨i - a, ?_, ?_⟩
    · simp [List.length_take, List.length_drop]; omega
    · simp [List.getElem_take, List.getElem_drop]
      congr 1; omega

theorem sort_full (b : List ℚ) (len : Nat) (h : b.length = len) :
    sort b len = b.insertionSort (fun x y => x ≤ y) := by
  unfold sort
  subst h
  simp

theorem mean_between (l : List ℚ) (lo hi : ℚ) (n : Nat) (hn : l.length = n) (hpos : 0 < n)
    (h : ∀ x ∈ l, lo ≤ x ∧ x ≤ hi) : lo ≤ l.sum / (n : ℚ) ∧ l.sum / (n : ℚ) ≤ hi := by
  have hn0 : (0 : ℚ) < (n : ℚ) := by exact_mod_cast hpos
  have h1 : l.length • lo ≤ l.sum := List.card_nsmul_le_sum l lo (fun x hx => (h x hx).1)
  have h2 : l.sum ≤ l.length • hi := List.sum_le_card_nsmul l hi (fun x hx => (h x hx).2)
  rw [hn, nsmul_eq_mul] at h1 h2
  constructor
  · rw [le_div_iff₀ hn0]; linarith
  · rw [div_le_iff₀ hn0]; linarith

theorem construct_stats_spec (offsets : List ℚ) (h : offsets.length = AVG_COUNT) :
    (construct_stats offsets).sorted.Sorted (fun x y => x ≤ y) ∧
    (construct_stats offsets).sorted.Perm offsets ∧
    (construct_stats offsets).sorted.length = 100 ∧
    (construct_stats offsets).avg_offset
      = (((construct_stats offsets).sorted.drop 10).take 80).sum / 80 ∧
    (construct_stats offsets).sorted[10]? = some (construct_stats offsets).min ∧
    (construct_stats offsets).sorted[89]? = some (construct_stats offsets).max := by
  have hs : (construct_stats offsets).sorted = offsets.insertionSort (fun x y => x ≤ y) :=
    sort_full offsets AVG_COUNT h
  have hlen : (construct_stats offsets).sorted.length = 100 := by
    rw [hs, List.length_insertionSort]; exact h
  refine ⟨?_, ?_, hlen, ?_, ?_, ?_⟩
  · rw [hs]; exact List.sorted_insertionSort _ _
  · rw [hs]; exact List.perm_insertionSort _ _
  · simp [construct_stats, avg, AVG_THRESHOLD, AVG_COUNT]
  · have h10 : 10 < (construct_stats offsets).sorted.length := by omega
    simp only [construct_stats, AVG_THRESHOLD, AVG_COUNT] at h10 ⊢
    simp [List.getD_eq_getElem?_getD, List.getElem?_eq_getElem h10]
  · have h89 : 89 < (construct_stats offsets).sorted.length := by omega
    simp only [construct_stats, AVG_THRESHOLD, AVG_COUNT] at h89 ⊢
    simp [List.getD_eq_getElem?_getD, List.getElem?_eq_getElem h89]

theorem scan_result_length (m : Measurements) (found : Option ℚ) :
    (scan_result m found).1.offsets.length = m.offsets.length := by
  unfold scan_result
  cases found with
  | none => rfl
  | some raw =>
    dsimp only
    split_ifs <;> simp

theorem sorted_trim_spec (L : List ℚ) (hL : L.Sorted (fun x y => x ≤ y)) (hlen : L.length = 100)
    (lo hi : ℚ) (hlo : L[10]? = some lo) (hhi : L[89]? = some hi) :
    L = L.take 10 ++ (L.drop 10).take 80 ++ L.drop 90 ∧
    (L.take 10).length = 10 ∧ ((L.drop 10).take 80).length = 80 ∧ (L.drop 90).length = 10 ∧
    (∀ x ∈ L.take 10, ∀ y ∈ (L.drop 10).take 80, x ≤ y) ∧
    (∀ y ∈ (L.drop 10).take 80, ∀ z ∈ L.drop 90, y ≤ z) ∧
    lo ∈ (L.drop 10).take 80 ∧ hi ∈ (L.drop 10).take 80 ∧
    (∀ x ∈ (L.drop 10).take 80, lo ≤ x ∧ x ≤ hi) := by
  have h10 : 10 < L.length := by omega
  have h89 : 89 < L.length := by omega
  have elo : L[10] = lo := by
    rw [List.getElem?_eq_getElem h10] at hlo; exact Option.some.inj hlo
  have ehi : L[89] = hi := by
    rw [List.getElem?_eq_getElem h89] at hhi; exact Option.some.inj hhi
  have htake : ∀ x, x ∈ L.take 10 ↔ ∃ i, ∃ h : i < L.length, 0 ≤ i ∧ i < 0 + 10 ∧ L[i] = x := by
    intro x
    have := mem_window_iff L 0 10 x
    simpa using this
  have hdrop : ∀ x, x ∈ L.drop 90 ↔ ∃ i, ∃ h : i < L.length, 90 ≤ i ∧ i < 90 + 10 ∧ L[i] = x := by
    intro x
    have := mem_window_iff L 90 10 x
    rwa [List.take_of_length_le (by simp [hlen])] at this
  refine ⟨?_, by simp [hlen], by simp [hlen], by simp [hlen], ?_, ?_, ?_, ?_, ?_⟩
  · have e1 : L.drop 90 = (L.drop 10).drop 80 := by rw [List.drop_drop]
    rw [e1, List.append_assoc, List.take_append_drop, List.take_append_drop]
  · intro x hx y hy
    obtain ⟨i, hi, -, hi2, rfl⟩ := (htake x).mp hx
    obtain ⟨j, hj, hj1, -, rfl⟩ := (mem_window_iff L 10 80 y).mp hy
    exact sorted_getElem_le L hL i j (by omega) hj
  · intro y hy z hz
    obtain ⟨j, hj, -, hj2, rfl⟩ := (mem_window_iff L 10 80 y).mp hy
    obtain ⟨k, hk, hk1, -, rfl⟩ := (hdrop z).mp hz
    exact sorted_getElem_le L hL j k (by omega) hk
  · exact (mem_window_iff L 10 80 lo).mpr ⟨10, h10, by omega, by omega, elo⟩
  · exact (mem_window_iff L 10 80 hi).mpr ⟨89, h89, by omega, by omega, ehi⟩
  · intro x hx
    obtain ⟨j, hj, hj1, hj2, rfl⟩ := (mem_window_iff L 10 80 x).mp hx
    rw [← elo, ← ehi]
    exact ⟨sorted_getElem_le L hL 10 j hj1 hj, sorted_getElem_le L hL j 89 (by omega) h89⟩

theorem scan_result_events (m : Measurements) (found : Option ℚ) :
    (scan_result m found).2 = [] ∨
    ∃ raw, found = some raw ∧ (scan_result m found).2 = [Event.store m.count (baseband_error raw)] := by
  unfold scan_result
  cases found with
  | none => exact Or.inl rfl
  | some raw =>
    dsimp only
    split_ifs
    · exact Or.inr ⟨raw, rfl, rfl⟩
    · exact Or.inl rfl

theorem stores_trace {σ β : Type} (D : SoapySDRDevice σ β) (detector : Detector β)
    (count0 : Nat) (offsets0 : List ℚ) (sdr : σ) :
    stores (offset_detect D detector count0 offsets0 sdr).trace
      = (scan_result { offsets := offsets0, count := count0, notfound := 0 }
          (offset_detect D detector count0 offsets0 sdr).found).2 := by
  simp only [offset_detect, stores]
  rcases scan_result_events { offsets := offsets0, count := count0, notfound := 0 }
    (detector (D.getSampleRate sdr)
      (D.readStream (D.activateStream (D.setupStream sdr).2)
        (window_request (window_length (D.getSampleRate sdr)))).2.1
      (window_request (window_length (D.getSampleRate sdr)))) with h | ⟨raw, -, h⟩
  · rw [h]; split_ifs <;> simp
  · rw [h]; split_ifs <;> simp

theorem attempts_trace {σ β : Type} (D : SoapySDRDevice σ β) (detector : Detector β)
    (count0 : Nat) (offsets0 : List ℚ) (sdr : σ) :
    attempts (offset_detect D detector count0 offsets0 sdr).trace
      = [Event.scan (window_request (offset_detect D detector count0 offsets0 sdr).s_len)] := by
  simp only [offset_detect, attempts]
  rcases scan_result_events { offsets := offsets0, count := count0, notfound := 0 }
    (detector (D.getSampleRate sdr)
      (D.readStream (D.activateStream (D.setupStream sdr).2)
        (window_request (window_length (D.getSampleRate sdr)))).2.1
      (window_request (window_length (D.getSampleRate sdr)))) with h | ⟨raw, -, h⟩
  · rw [h]; split_ifs <;> simp
  · rw [h]; split_ifs <;> simp

theorem measured_eq {σ β : Type} (D : SoapySDRDevice σ β) (detector : Detector β)
    (count0 : Nat) (offsets0 : List ℚ) (sdr : σ) :
    (offset_detect D detector count0 offsets0 sdr).measured
      = (scan_result { offsets := offsets0, count := count0, notfound := 0 }
          (offset_detect D detector count0 offsets0 sdr).found).1 := rfl

theorem sim_found (rate corr freq : ℚ) (rc : Int) (result : Option ℚ) (count0 : Nat)
    (offsets0 : List ℚ) (s : Nat) :
    (offset_detect (simDevice rate corr freq rc) (simDetector result) count0 offsets0 s).found
      = result := rfl

theorem construct_stats_zeroOffsets : (construct_stats zeroOffsets).avg_offset = 0 := by
  obtain ⟨hsorted, hperm, hlen, havg, hmin, hmax⟩ := construct_stats_spec zeroOffsets rfl
  have hall : ∀ x ∈ (((construct_stats zeroOffsets).sorted.drop 10).take 80), (0 : ℚ) ≤ x ∧ x ≤ 0 := by
    intro x hx
    have hx2 : x ∈ zeroOffsets :=
      hperm.subset (List.mem_of_mem_drop (List.mem_of_mem_take hx))
    have : x = 0 := List.eq_of_mem_replicate hx2
    rw [this]
    exact ⟨le_refl _, le_refl _⟩
  have hl : (((construct_stats zeroOffsets).sorted.drop 10).take 80).length = 80 := by
    simp [hlen]
  have hb := mean_between _ 0 0 80 hl (by norm_num) hall
  rw [havg]
  exact le_antisymm (by simpa using hb.2) (by simpa using hb.1)

theorem mem_trace_tail {σ β : Type} (D : SoapySDRDevice σ β) (detector : Detector β)
    (count0 : Nat) (offsets0 : List ℚ) (sdr : σ) (e : Event)
    (he : e ∈ [Event.deactivateStream, Event.closeStream, Event.sortOffsets, Event.avgOffsets,
       Event.getFrequencyCorrection, Event.getFrequency]) :
    e ∈ (offset_detect D detector count0 offsets0 sdr).trace := by
  simp only [offset_detect]
  exact List.mem_append_right _ he

theorem window_length_of_ceil (R : ℚ) (z : Nat)
    (hz : ⌈(12 * 8 * 156.25 + 156.25) * samples_per_symbol R⌉ = (z : ℤ)) (hlt : z < 2 ^ 32) :
    window_length R = z := by
  unfold window_length ceil_to_unsigned UINT_RANGE
  rw [hz, Int.toNat_ofNat]
  exact Nat.mod_eq_of_lt hlt

theorem samples_per_symbol_20MHz : samples_per_symbol 20000000 = 9679163 / 131072 := by
  have e : (20000000 : ℚ) / GSM_RATE = 960 / 13 := by norm_num [GSM_RATE]
  unfold samples_per_symbol
  rw [e, to_float_eq _ 6 9679163 (by norm_num [abs_of_pos]) (by norm_num [abs_of_pos])
    (by rw [abs_lt]; norm_num)]
  norm_num

theorem window_length_20MHz : window_length 20000000 = 1119231 := by
  apply window_length_of_ceil _ _ _ (by norm_num)
  rw [samples_per_symbol_20MHz, Int.ceil_eq_iff]
  norm_num

theorem strcmp_ne_zero_iff (a b : String) : strcmp a b ≠ 0 ↔ a ≠ b := by
  unfold strcmp
  split_ifs with h1 h2 <;> simp [h1]

theorem antenna_loop_true (a : String) (names : List String) :
    antenna_loop (some a) names true = true := by
  induction names with
  | nil => rfl
  | cons name rest ih =>
    simp only [antenna_loop]
    split_ifs <;> exact ih

theorem antenna_loop_false_iff (a : String) (names : List String) :
    antenna_loop (some a) names false = true ↔ ∃ name ∈ names, name ≠ a := by
  induction names with
  | nil => simp [antenna_loop]
  | cons name rest ih =>
    simp only [antenna_loop]
    by_cases h : name = a
    · have h0 : ¬ strcmp name a ≠ 0 := fun hc => (strcmp_ne_zero_iff name a).mp hc h
      rw [if_neg h0, ih]
      simp [h]
    · have h0 : strcmp name a ≠ 0 := (strcmp_ne_zero_iff name a).mpr h
      rw [if_pos h0, antenna_loop_true]
      simp [h]

theorem fill_loop_last (env : FillEnv) (k n ov : Nat) (hn : n ≤ 8192)
    (hrecv : ¬ (env.recv k).1 < 0) (havail : ¬ env.poke k < n) :
    fill_loop env k n ov =
      { ret := some 0
        overruns := if (env.recv k).2 ≠ 8192 then (ov + 1) % UINT_RANGE else ov
        log := [FillEvent.recv (env.recv k).1, FillEvent.commit (env.poke k) n] } := by
  have hc : (if n > 8192 then 8192 else n) = n := if_neg (by omega)
  rw [fill_loop]
  simp only [hc, if_neg hrecv, if_neg havail, le_refl, dite_true]

theorem fill_loop_more (env : FillEnv) (k n ov : Nat) (hn : 8192 < n) (hlt : n < UINT_RANGE)
    (hrecv : ¬ (env.recv k).1 < 0) (havail : ¬ env.poke k < 8192) :
    fill_loop env k n ov =
      FillRun.after [FillEvent.recv (env.recv k).1, FillEvent.commit (env.poke k) 8192,
          FillEvent.sub n]
        (fill_loop env (k + 1) (n - 8192)
          (if (env.recv k).2 ≠ 8192 then (ov + 1) % UINT_RANGE else ov)) := by
  have hc : (if n > 8192 then 8192 else n) = 8192 := if_pos hn
  have hsub : (n + UINT_RANGE - 8192) % UINT_RANGE = n - 8192 := by
    unfold UINT_RANGE at hlt ⊢
    omega
  rw [fill_loop]
  simp only [hc, if_neg hrecv, if_neg havail, hsub, dif_neg (not_le.mpr hn)]

theorem fill_loop_recv_failed (env : FillEnv) (k n ov : Nat) (hrecv : (env.recv k).1 < 0) :
    fill_loop env k n ov =
      { ret := some (-1), overruns := ov, log := [FillEvent.recv (env.recv k).1] } := by
  rw [fill_loop]
  simp only [if_pos hrecv]

theorem fill_loop_assert_failed (env : FillEnv) (k n ov : Nat) (hrecv : ¬ (env.recv k).1 < 0)
    (havail : env.poke k < (if n > 8192 then 8192 else n)) :
    fill_loop env k n ov =
      { ret := none
        overruns := ov
        log := [FillEvent.recv (env.recv k).1,
          FillEvent.assertFailed (env.poke k) (if n > 8192 then 8192 else n)] } := by
  rw [fill_loop]
  simp only [if_neg hrecv, if_pos havail]

theorem after_log (e1 e2 e3 : FillEvent) (rest : FillRun) :
    (FillRun.after [e1, e2, e3] rest).log = e1 :: e2 :: e3 :: rest.log := rfl

theorem after_ret (events : List FillEvent) (rest : FillRun) :
    (FillRun.after events rest).ret = rest.ret := rfl

theorem fill_last_spec (rc : Int) (avail n : Nat) (hn : n ≤ 8192) (havail : ¬ avail < n) :
    recv_calls [FillEvent.recv rc, FillEvent.commit avail n] = max 1 ((n + 8191) / 8192) ∧
    (∀ a c, FillEvent.commit a c ∈ [FillEvent.recv rc, FillEvent.commit avail n] →
      c ≤ 8192 ∧ c ≤ a) ∧
    (∀ m, FillEvent.sub m ∈ [FillEvent.recv rc, FillEvent.commit avail n] → 8192 ≤ m) ∧
    committed [FillEvent.recv rc, FillEvent.commit avail n] = n := by
  refine ⟨?_, ?_, ?_, ?_⟩
  · simp only [recv_calls]
    omega
  · intro a c hc
    simp at hc
    omega
  · intro m hm
    simp at hm
  · simp [committed]

theorem fill_more_spec (rc : Int) (avail n : Nat) (rest : List FillEvent) (hgt : 8192 < n)
    (havail : ¬ avail < 8192)
    (hcalls : recv_calls rest = max 1 ((n - 8192 + 8191) / 8192))
    (hcommits : ∀ a c, FillEvent.commit a c ∈ rest → c ≤ 8192 ∧ c ≤ a)
    (hsubs : ∀ m, FillEvent.sub m ∈ rest → 8192 ≤ m)
    (hsum : committed rest = n - 8192) :
    recv_calls (FillEvent.recv rc :: FillEvent.commit avail 8192 :: FillEvent.sub n :: rest)
      = max 1 ((n + 8191) / 8192) ∧
    (∀ a c, FillEvent.commit a c ∈
        FillEvent.recv rc :: FillEvent.commit avail 8192 :: FillEvent.sub n :: rest →
      c ≤ 8192 ∧ c ≤ a) ∧
    (∀ m, FillEvent.sub m ∈
        FillEvent.recv rc :: FillEvent.commit avail 8192 :: FillEvent.sub n :: rest →
      8192 ≤ m) ∧
    committed (FillEvent.recv rc :: FillEvent.commit avail 8192 :: FillEvent.sub n :: rest)
      = n := by
  refine ⟨?_, ?_, ?_, ?_⟩
  · simp only [recv_calls, hcalls]
    omega
  · intro a c hc
    simp only [List.mem_cons] at hc
    rcases hc with hc | hc | hc | hc
    · exact absurd hc (by simp)
    · simp only [FillEvent.commit.injEq] at hc
      omega
    · exact absurd hc (by simp)
    · exact hcommits a c hc
  · intro m hm
    simp only [List.mem_cons] at hm
    rcases hm with hm | hm | hm | hm
    · exact absurd hm (by simp)
    · exact absurd hm (by simp)
    · simp only [FillEvent.sub.injEq] at hm
      omega
    · exact hsubs m hm
  · simp only [committed, hsum]
    omega

theorem sub_lt_range (n : Nat) (hlt : n < UINT_RANGE) : n - 8192 < UINT_RANGE :=
  lt_of_le_of_lt (Nat.sub_le n 8192) hlt

theorem fill_loop_spec (env : FillEnv) : ∀ n, n < UINT_RANGE → ∀ k ov,
    (∀ rc, FillEvent.recv rc ∈ (fill_loop env k n ov).log → 0 ≤ rc) →
    (∀ a c, FillEvent.assertFailed a c ∉ (fill_loop env k n ov).log) →
    (fill_loop env k n ov).ret = some 0 ∧
    recv_calls (fill_loop env k n ov).log = max 1 ((n + 8191) / 8192) ∧
    (∀ a c, FillEvent.commit a c ∈ (fill_loop env k n ov).log → c ≤ 8192 ∧ c ≤ a) ∧
    (∀ m, FillEvent.sub m ∈ (fill_loop env k n ov).log → 8192 ≤ m) ∧
    committed (fill_loop env k n ov).log = n := by
  intro n
  induction n using Nat.strong_induction_on with
  | _ n ih =>
    intro hlt k ov hrecvs hasserts
    have hrecv : ¬ (env.recv k).1 < 0 := by
      intro hneg
      have h := hrecvs (env.recv k).1 (by rw [fill_loop_recv_failed env k n ov hneg]; simp)
      exact absurd hneg (not_lt.mpr h)
    have havail : ¬ env.poke k < (if n > 8192 then 8192 else n) := by
      intro hsmall
      exact hasserts (env.poke k) (if n > 8192 then 8192 else n)
        (by rw [fill_loop_assert_failed env k n ov hrecv hsmall]; simp)
    by_cases hn : n ≤ 8192
    · rw [if_neg (not_lt.mpr hn)] at havail
      rw [fill_loop_last env k n ov hn hrecv havail]
      exact ⟨rfl, fill_last_spec _ _ _ hn havail⟩
    · have hgt : 8192 < n := not_le.mp hn
      rw [if_pos hgt] at havail
      have heq := fill_loop_more env k n ov hgt hlt hrecv havail
      rw [heq, after_log] at hrecvs hasserts
      have hrest := ih (n - 8192) (Nat.sub_lt (by omega) (by norm_num)) (sub_lt_range n hlt)
        (k + 1) (if (env.recv k).2 ≠ 8192 then (ov + 1) % UINT_RANGE else ov)
        (fun rc h => hrecvs rc
          (List.mem_cons_of_mem _ (List.mem_cons_of_mem _ (List.mem_cons_of_mem _ h))))
        (fun a c h => hasserts a c
          (List.mem_cons_of_mem _ (List.mem_cons_of_mem _ (List.mem_cons_of_mem _ h))))
      rw [heq, after_log, after_ret]
      exact ⟨hrest.1, fill_more_spec _ _ _ _ hgt havail hrest.2.1 hrest.2.2.1 hrest.2.2.2.1
        hrest.2.2.2.2⟩

theorem ceil_div_8192 (n : Nat) : (((n + 8191) / 8192 : Nat) : ℤ) = ⌈(n : ℚ) / 8192⌉ := by
  have h1 : 8192 * ((n + 8191) / 8192) ≤ n + 8191 := Nat.mul_div_le _ _
  have h2 : n + 8191 < 8192 * ((n + 8191) / 8192) + 8192 := by
    have := Nat.lt_mul_div_succ (n + 8191) (by norm_num : 0 < 8192)
    omega
  generalize (n + 8191) / 8192 = q at h1 h2
  have h1q : (8192 : ℚ) * (q : ℚ) ≤ (n : ℚ) + 8191 := by exact_mod_cast h1
  have h2q : (n : ℚ) + 8191 < 8192 * (q : ℚ) + 8192 := by exact_mod_cast h2
  have h3 : n ≤ 8192 * q := by omega
  have h3q : (n : ℚ) ≤ 8192 * (q : ℚ) := by exact_mod_cast h3
  symm
  rw [Int.ceil_eq_iff, Int.cast_natCast]
  constructor
  · rw [lt_div_iff₀ (by norm_num : (0 : ℚ) < 8192)]
    linarith
  · rw [div_le_iff₀ (by norm_num : (0 : ℚ) < 8192)]
    linarith

theorem fill_sim_20000 :
    (fill simFillEnv 20000).log
      = [FillEvent.recv 0, FillEvent.commit 262144 8192, FillEvent.sub 20000,
         FillEvent.recv 0, FillEvent.commit 262144 8192, FillEvent.sub 11808,
         FillEvent.recv 0, FillEvent.commit 262144 3616] := by
  have hr : ∀ k, ¬ (simFillEnv.recv k).1 < 0 := fun k => by simp [simFillEnv]
  have hp : ∀ k, ¬ simFillEnv.poke k < 8192 := fun k => by simp [simFillEnv]
  have hp2 : ¬ simFillEnv.poke 2 < 3616 := by simp [simFillEnv]
  have hU : (20000 : Nat) < UINT_RANGE := by norm_num [UINT_RANGE]
  have hU2 : (11808 : Nat) < UINT_RANGE := by norm_num [UINT_RANGE]
  unfold fill
  rw [fill_loop_more simFillEnv 0 20000 0 (by norm_num) hU (hr 0) (hp 0), after_log]
  have e1 : (20000 : Nat) - 8192 = 11808 := by norm_num
  rw [e1, fill_loop_more simFillEnv (0 + 1) 11808 _ (by norm_num) hU2 (hr _) (hp _), after_log]
  have e2 : (11808 : Nat) - 8192 = 3616 := by norm_num
  rw [e2, fill_loop_last simFillEnv (0 + 1 + 1) 3616 _ (by norm_num) (hr _) hp2]
  simp [simFillEnv]

theorem land_clear_low_bit (d : Nat) (hd : d < 2 ^ 32) : d &&& (2 ^ 32 - 2) = d - d % 2 := by
  have hmod : (d &&& (2 ^ 32 - 2)) % 2 = 0 := by
    rcases Nat.mod_two_eq_zero_or_one (d &&& (2 ^ 32 - 2)) with h | h
    · exact h
    · have := (Nat.and_mod_two_eq_one.mp h).2
      norm_num at this
  have hdiv : (d &&& (2 ^ 32 - 2)) / 2 = d / 2 := by
    rw [Nat.and_div_two]
    have e : (2 ^ 32 - 2) / 2 = 2 ^ 31 - 1 := by norm_num
    rw [e, Nat.and_pow_two_sub_one_eq_mod]
    exact Nat.mod_eq_of_lt (by omega)
  have h1 := Nat.div_add_mod (d &&& (2 ^ 32 - 2)) 2
  have h2 := Nat.div_add_mod d 2
  omega

theorem ramp_length : rampOffsets.length = AVG_COUNT := by
  simp [rampOffsets, AVG_COUNT]

theorem ramp_sorted :
    ((List.range 100).map (fun n : Nat => (n : ℚ))).Sorted (fun x y => x ≤ y) := by
  have h : (List.range 100).Pairwise (fun a b => a ≤ b) := List.sorted_le_range 100
  exact List.Pairwise.map _ (fun a b hab => by exact_mod_cast hab) h

theorem sorted_of_ramp (L : List ℚ) (hs : L.Sorted (fun x y => x ≤ y))
    (hp : L.Perm rampOffsets) : L = (List.range 100).map (fun n : Nat => (n : ℚ)) := by
  apply List.eq_of_perm_of_sorted _ hs ramp_sorted
  exact hp.trans (List.reverse_perm _)

theorem ramp_trimmed_sum :
    ((((List.range 100).map (fun n : Nat => (n : ℚ))).drop 10).take 80).sum = 3960 := by
  rw [← List.map_drop, ← List.map_take, ← Nat.cast_list_sum]
  have : (((List.range 100).drop 10).take 80).sum = 3960 := by decide
  rw [this]
  norm_num

theorem construct_stats_ramp :
    (construct_stats rampOffsets).sorted = (List.range 100).map (fun n : Nat => (n : ℚ)) ∧
    (construct_stats rampOffsets).avg_offset = 99 / 2 ∧
    (construct_stats rampOffsets).min = 10 ∧
    (construct_stats rampOffsets).max = 89 := by
  obtain ⟨hsorted, hperm, hlen, havg, hmin, hmax⟩ := construct_stats_spec rampOffsets ramp_length
  have hs := sorted_of_ramp _ hsorted hperm
  rw [hs] at havg hmin hmax
  refine ⟨hs, ?_, ?_, ?_⟩
  · rw [havg, ramp_trimmed_sum]; norm_num
  · have : ((List.range 100).map (fun n : Nat => (n : ℚ)))[10]? = some 10 := by
      simp
    rw [this] at hmin
    exact (Option.some.inj hmin).symm
  · have : ((List.range 100).map (fun n : Nat => (n : ℚ)))[89]? = some 89 := by
      simp
    rw [this] at hmax
    exact (Option.some.inj hmax).symm

/-! ## The claims -/

/-- C1: with `a` the average offset that the statistics stage computes from
the array left by the scan, and `c` and `F` the frequency correction and the
non-zero centre frequency that the driver reports in the state it has after
the stream is deactivated and closed, the run computes
`total_ppm = c - (a / F) * 1000000`; the two reads are the last things the
run does, after the array is sorted and averaged. -/
theorem offset_detect_total_ppm {σ β : Type} (D : SoapySDRDevice σ β) (detector : Detector β)
    (count0 : Nat) (offsets0 : List ℚ) (sdr : σ) (a c F : ℚ)
    (ha : (construct_stats
        (scan_result { offsets := offsets0, count := count0, notfound := 0 }
          (detector (D.getSampleRate sdr)
            (D.readStream (D.activateStream (D.setupStream sdr).2)
              (window_request (window_length (D.getSampleRate sdr)))).2.1
            (window_request (window_length (D.getSampleRate sdr))))).1.offsets).avg_offset = a)
    (hc : D.getFrequencyCorrection
        (D.closeStream (D.deactivateStream
          (D.readStream (D.activateStream (D.setupStream sdr).2)
            (window_request (window_length (D.getSampleRate sdr)))).2.2)) = c)
    (hF : D.getFrequency
        (D.closeStream (D.deactivateStream
          (D.readStream (D.activateStream (D.setupStream sdr).2)
            (window_request (window_length (D.getSampleRate sdr)))).2.2)) = F)
    (hF0 : F ≠ 0) :
    (offset_detect D detector count0 offsets0 sdr).stats.avg_offset = a ∧
    (offset_detect D detector count0 offsets0 sdr).current_correction = c ∧
    (offset_detect D detector count0 offsets0 sdr).current_frequency = F ∧
    (offset_detect D detector count0 offsets0 sdr).total_ppm = c - (a / F) * 1000000 ∧
    (offset_detect D detector count0 offsets0 sdr).total_ppm * F = c * F - a * 1000000 ∧
    (offset_detect D detector count0 offsets0 sdr).sdr
      = D.closeStream (D.deactivateStream
          (D.readStream (D.activateStream (D.setupStream sdr).2)
            (window_request (window_length (D.getSampleRate sdr)))).2.2) ∧
    [Event.sortOffsets, Event.avgOffsets, Event.getFrequencyCorrection, Event.getFrequency]
      <:+ (offset_detect D detector count0 offsets0 sdr).trace := by
  have e : (offset_detect D detector count0 offsets0 sdr).total_ppm = c - (a / F) * 1000000 := by
    rw [← ha, ← hc, ← hF]; rfl
  refine ⟨ha, hc, hF, e, ?_, rfl, ?_⟩
  · rw [e]; field_simp
  · simp only [offset_detect]
    refine List.IsSuffix.trans ?_ (List.suffix_append _ _)
    exact List.suffix_append [Event.deactivateStream, Event.closeStream] _

theorem offset_detect_total_ppm_witness :
    (990000000 : ℚ) ≠ 0 ∧
    (offset_detect (simDevice 20000000 35 990000000 0) (simDetector none) 0
      rampOffsets 0).stats.avg_offset = 99 / 2 ∧
    (offset_detect (simDevice 20000000 35 990000000 0) (simDetector none) 0
      rampOffsets 0).total_ppm = 35 - ((99 / 2 : ℚ) / 990000000) * 1000000 ∧
    (35 : ℚ) - ((99 / 2 : ℚ) / 990000000) * 1000000 = 699 / 20 :=
  have h := offset_detect_total_ppm (simDevice 20000000 35 990000000 0) (simDetector none) 0
    rampOffsets 0 (99 / 2) 35 990000000 construct_stats_ramp.2.1 rfl rfl (by norm_num)
  ⟨by norm_num, h.1, h.2.2.2.1, by norm_num⟩

/-- C2: the statistics stage of a run works on the array `offsets` the scan
leaves: the initial array, or that array with the accepted measurement stored
at `count`. For every such array of `AVG_COUNT = 100` values, the stage sorts
it ascending (a sorted permutation of the set), drops the 10 lowest and the 10
highest entries, averages exactly the 80 entries at sorted positions 10 to 89,
and takes `min` and `max` at positions 10 and 89, which are the smallest and
largest trimmed values; so `min <= average <= max` and every trimmed value
lies in `[min, max]`. The helpers `sort` and `avg` of util.cc are modelled
from the spec. -/
theorem offset_detect_trimmed_stats {σ β : Type} (D : SoapySDRDevice σ β)
    (detector : Detector β) (count0 : Nat) (offsets0 : List ℚ) (sdr : σ)
    (h : offsets0.length = AVG_COUNT) :
    AVG_THRESHOLD = 10 ∧ AVG_COUNT - 2 * AVG_THRESHOLD = 80 ∧
    (offset_detect D detector count0 offsets0 sdr).found
      = detector (D.getSampleRate sdr)
          (D.readStream (D.activateStream (D.setupStream sdr).2)
            (window_request (window_length (D.getSampleRate sdr)))).2.1
          (window_request (window_length (D.getSampleRate sdr))) ∧
    (offset_detect D detector count0 offsets0 sdr).measured.offsets
      = (match (offset_detect D detector count0 offsets0 sdr).found with
        | none => offsets0
        | some raw =>
          if |baseband_error raw| < OFFSET_MAX then offsets0.set count0 (baseband_error raw)
          else offsets0) ∧
    (offset_detect D detector count0 offsets0 sdr).measured.offsets.length = 100 ∧
    (offset_detect D detector count0 offsets0 sdr).stats
      = construct_stats (offset_detect D detector count0 offsets0 sdr).measured.offsets ∧
    (offset_detect D detector count0 offsets0 sdr).stats.sorted.Sorted (fun x y => x ≤ y) ∧
    (offset_detect D detector count0 offsets0 sdr).stats.sorted.Perm
      (offset_detect D detector count0 offsets0 sdr).measured.offsets ∧
    (offset_detect D detector count0 offsets0 sdr).stats.sorted
      = (offset_detect D detector count0 offsets0 sdr).stats.sorted.take 10
        ++ ((offset_detect D detector count0 offsets0 sdr).stats.sorted.drop 10).take 80
        ++ (offset_detect D detector count0 offsets0 sdr).stats.sorted.drop 90 ∧
    ((offset_detect D detector count0 offsets0 sdr).stats.sorted.take 10).length = 10 ∧
    (((offset_detect D detector count0 offsets0 sdr).stats.sorted.drop 10).take 80).length = 80 ∧
    ((offset_detect D detector count0 offsets0 sdr).stats.sorted.drop 90).length = 10 ∧
    (∀ x ∈ (offset_detect D detector count0 offsets0 sdr).stats.sorted.take 10,
      ∀ y ∈ ((offset_detect D detector count0 offsets0 sdr).stats.sorted.drop 10).take 80,
        x ≤ y) ∧
    (∀ y ∈ ((offset_detect D detector count0 offsets0 sdr).stats.sorted.drop 10).take 80,
      ∀ z ∈ (offset_detect D detector count0 offsets0 sdr).stats.sorted.drop 90, y ≤ z) ∧
    (offset_detect D detector count0 offsets0 sdr).stats.avg_offset
      = (((offset_detect D detector count0 offsets0 sdr).stats.sorted.drop 10).take 80).sum
        / 80 ∧
    (offset_detect D detector count0 offsets0 sdr).stats.sorted[10]?
      = some (offset_detect D detector count0 offsets0 sdr).stats.min ∧
    (offset_detect D detector count0 offsets0 sdr).stats.sorted[89]?
      = some (offset_detect D detector count0 offsets0 sdr).stats.max ∧
    (offset_detect D detector count0 offsets0 sdr).stats.min
      ∈ ((offset_detect D detector count0 offsets0 sdr).stats.sorted.drop 10).take 80 ∧
    (offset_detect D detector count0 offsets0 sdr).stats.max
      ∈ ((offset_detect D detector count0 offsets0 sdr).stats.sorted.drop 10).take 80 ∧
    (∀ x ∈ ((offset_detect D detector count0 offsets0 sdr).stats.sorted.drop 10).take 80,
      (offset_detect D detector count0 offsets0 sdr).stats.min ≤ x
        ∧ x ≤ (offset_detect D detector count0 offsets0 sdr).stats.max) ∧
    (offset_detect D detector count0 offsets0 sdr).stats.min
      ≤ (offset_detect D detector count0 offsets0 sdr).stats.avg_offset ∧
    (offset_detect D detector count0 offsets0 sdr).stats.avg_offset
      ≤ (offset_detect D detector count0 offsets0 sdr).stats.max := by
  have hm : (offset_detect D detector count0 offsets0 sdr).measured.offsets.length = AVG_COUNT := by
    rw [← h, measured_eq]
    exact scan_result_length _ _
  have hset : (offset_detect D detector count0 offsets0 sdr).measured.offsets
      = (match (offset_detect D detector count0 offsets0 sdr).found with
        | none => offsets0
        | some raw =>
          if |baseband_error raw| < OFFSET_MAX then offsets0.set count0 (baseband_error raw)
          else offsets0) := by
    rw [measured_eq]
    cases (offset_detect D detector count0 offsets0 sdr).found with
    | none => rfl
    | some raw =>
      simp only [scan_result, fabs_eq_abs]
      split_ifs <;> rfl
  have hst : (offset_detect D detector count0 offsets0 sdr).stats
      = construct_stats (offset_detect D detector count0 offsets0 sdr).measured.offsets := rfl
  obtain ⟨hsorted, hperm, hlen, havg, hmin, hmax⟩ :=
    construct_stats_spec (offset_detect D detector count0 offsets0 sdr).measured.offsets hm
  rw [← hst] at hsorted hperm hlen havg hmin hmax
  obtain ⟨hsplit, l1, l2, l3, hlow, hhigh, minmem, maxmem, hbounds⟩ :=
    sorted_trim_spec _ hsorted hlen _ _ hmin hmax
  have hmean := mean_between _ _ _ 80 l2 (by norm_num) hbounds
  rw [havg]
  exact ⟨rfl, rfl, rfl, hset, hm, hst, hsorted, hperm, hsplit, l1, l2, l3, hlow, hhigh, rfl,
    hmin, hmax, minmem, maxmem, hbounds, by simpa using hmean.1, by simpa using hmean.2⟩

theorem offset_detect_trimmed_stats_witness :
    rampOffsets.length = AVG_COUNT ∧
    (offset_detect (simDevice 20000000 0 935000000 0) (simDetector none) 3
      rampOffsets 0).measured.offsets = rampOffsets ∧
    (offset_detect (simDevice 20000000 0 935000000 0) (simDetector none) 3
      rampOffsets 0).stats.sorted = (List.range 100).map (fun n : Nat => (n : ℚ)) ∧
    (offset_detect (simDevice 20000000 0 935000000 0) (simDetector none) 3
      rampOffsets 0).stats.min = 10 ∧
    (offset_detect (simDevice 20000000 0 935000000 0) (simDetector none) 3
      rampOffsets 0).stats.max = 89 ∧
    (offset_detect (simDevice 20000000 0 935000000 0) (simDetector none) 3
      rampOffsets 0).stats.avg_offset = 99 / 2 :=
  have h := offset_detect_trimmed_stats (simDevice 20000000 0 935000000 0) (simDetector none) 3
    rampOffsets 0 ramp_length
  have hset : (offset_detect (simDevice 20000000 0 935000000 0) (simDetector none) 3
      rampOffsets 0).measured.offsets = rampOffsets := h.2.2.2.1
  have hsorted := sorted_of_ramp _ h.2.2.2.2.2.2.1 (hset ▸ h.2.2.2.2.2.2.2.1)
  have hmin := h.2.2.2.2.2.2.2.2.2.2.2.2.2.2.2.1
  have hmax := h.2.2.2.2.2.2.2.2.2.2.2.2.2.2.2.2.1
  have havg := h.2.2.2.2.2.2.2.2.2.2.2.2.2.2.1
  ⟨ramp_length, hset, hsorted,
    by
      rw [hsorted] at hmin
      have e : ((List.range 100).map (fun n : Nat => (n : ℚ)))[10]? = some 10 := by simp
      rw [e] at hmin
      exact (Option.some.inj hmin).symm,
    by
      rw [hsorted] at hmax
      have e : ((List.range 100).map (fun n : Nat => (n : ℚ)))[89]? = some 89 := by simp
      rw [e] at hmax
      exact (Option.some.inj hmax).symm,
    by
      rw [havg, hsorted, ramp_trimmed_sum]
      norm_num⟩

/-- C3, counterexample: the raw estimate 27708.333984375 Hz is a `float`; its
baseband error, narrowed to `float` as line 100 does, is exactly -40000 Hz,
which is within the bound `|e| <= 40000`, yet the run does not append it: no
store is made and the measurement locals are left as they were. -/
theorem offset_detect_boundary_not_appended :
    to_float (14186667 / 512) = 14186667 / 512 ∧
    baseband_error (14186667 / 512) = -40000 ∧
    |baseband_error (14186667 / 512)| = 40000 ∧
    |baseband_error (14186667 / 512)| ≤ OFFSET_MAX ∧
    (offset_detect (simDevice 20000000 0 935000000 0) (simDetector (some (14186667 / 512))) 0
      zeroOffsets 0).found = some (14186667 / 512) ∧
    stores (offset_detect (simDevice 20000000 0 935000000 0)
      (simDetector (some (14186667 / 512))) 0 zeroOffsets 0).trace = [] ∧
    (offset_detect (simDevice 20000000 0 935000000 0) (simDetector (some (14186667 / 512))) 0
      zeroOffsets 0).measured = { offsets := zeroOffsets, count := 0, notfound := 0 } := by
  have e : baseband_error (14186667 / 512) = -40000 := baseband_error_boundary
  have hf : to_float (14186667 / 512) = 14186667 / 512 := by
    rw [to_float_eq _ 14 14186667 (by norm_num [abs_of_pos]) (by norm_num [abs_of_pos])
      (by rw [abs_lt]; norm_num)]
    norm_num
  refine ⟨hf, e, by rw [e]; norm_num, by rw [e]; norm_num [OFFSET_MAX], rfl, ?_, ?_⟩
  · rw [stores_trace, sim_found]
    norm_num [scan_result, e, fabs, OFFSET_MAX]
  · rw [measured_eq, sim_found]
    norm_num [scan_result, e, fabs, OFFSET_MAX]

/-- C3, amended: for every detection with `found = true` and baseband error
`e` (the `float` value that line 100 leaves in `offset`), the run appends the measurement (stores `e` at `offsets[count]` and
raises `count` by one) if and only if `|e| < 40000`, strictly; when
`|e| >= 40000`, the boundary `|e| = 40000` included, it makes no store and
leaves the measurement locals as they were. -/
theorem offset_detect_sanity_check {σ β : Type} (D : SoapySDRDevice σ β)
    (detector : Detector β) (count0 : Nat) (offsets0 : List ℚ) (sdr : σ) (raw : ℚ)
    (hfound : (offset_detect D detector count0 offsets0 sdr).found = some raw) :
    OFFSET_MAX = 40000 ∧
    (Event.store count0 (baseband_error raw)
        ∈ (offset_detect D detector count0 offsets0 sdr).trace
      ↔ |baseband_error raw| < 40000) ∧
    stores (offset_detect D detector count0 offsets0 sdr).trace
      = (if |baseband_error raw| < 40000 then [Event.store count0 (baseband_error raw)]
         else []) ∧
    (offset_detect D detector count0 offsets0 sdr).measured
      = (if |baseband_error raw| < 40000 then
          { offsets := offsets0.set count0 (baseband_error raw)
            count := (count0 + 1) % UINT_RANGE
            notfound := 0 }
         else { offsets := offsets0, count := count0, notfound := 0 }) := by
  have hs := stores_trace D detector count0 offsets0 sdr
  have hm : (offset_detect D detector count0 offsets0 sdr).measured
      = (scan_result { offsets := offsets0, count := count0, notfound := 0 }
          (offset_detect D detector count0 offsets0 sdr).found).1 := rfl
  rw [hfound] at hs hm
  have hmem : ∀ e, e ∈ stores (offset_detect D detector count0 offsets0 sdr).trace ↔
      e ∈ (offset_detect D detector count0 offsets0 sdr).trace ∧ ∃ i v, e = Event.store i v := by
    intro e
    cases e <;> simp [stores]
  have key : Event.store count0 (baseband_error raw)
        ∈ (offset_detect D detector count0 offsets0 sdr).trace
      ↔ Event.store count0 (baseband_error raw)
        ∈ stores (offset_detect D detector count0 offsets0 sdr).trace := by
    rw [hmem]
    exact ⟨fun h => ⟨h, _, _, rfl⟩, fun h => h.1⟩
  rw [key, hs, hm]
  simp only [scan_result, fabs_eq_abs, OFFSET_MAX]
  refine ⟨trivial, ?_, ?_, ?_⟩ <;> split_ifs <;> simp_all

theorem offset_detect_sanity_check_witness :
    (offset_detect (simDevice 20000000 0 935000000 0) (simDetector (some 100000)) 3
      zeroOffsets 0).found = some 100000 ∧
    (Event.store 3 (baseband_error 100000)
        ∈ (offset_detect (simDevice 20000000 0 935000000 0) (simDetector (some 100000)) 3
            zeroOffsets 0).trace
      ↔ |baseband_error 100000| < 40000) :=
  ⟨rfl,
   (offset_detect_sanity_check (simDevice 20000000 0 935000000 0) (simDetector (some 100000)) 3
      zeroOffsets 0 100000 rfl).2.1⟩

/-- C4, counterexample: at the sample rate R = 20 MHz (the rate `main` sets)
and a raw estimate f = 100 kHz, the error the run stores is
`f - GSM_RATE / 4` narrowed to `float`, 32291.666015625 Hz, and not
`f - R / 4 = -4900000` Hz; the claim's figure would fail the sanity check,
whereas the run accepts the measurement. -/
theorem offset_detect_error_not_quarter_rate :
    (simDevice 20000000 0 935000000 0).getSampleRate 0 = 20000000 ∧
    (offset_detect (simDevice 20000000 0 935000000 0) (simDetector (some 100000)) 0
      zeroOffsets 0).found = some 100000 ∧
    stores (offset_detect (simDevice 20000000 0 935000000 0) (simDetector (some 100000)) 0
      zeroOffsets 0).trace = [Event.store 0 (16533333 / 512)] ∧
    (16533333 / 512 : ℚ) ≠ 100000 - 20000000 / 4 ∧
    ¬ (|(100000 : ℚ) - 20000000 / 4| < OFFSET_MAX) := by
  have e : baseband_error 100000 = 16533333 / 512 := baseband_error_100kHz
  refine ⟨rfl, rfl, ?_, by norm_num, ?_⟩
  · rw [stores_trace, sim_found]
    norm_num [scan_result, e, fabs, OFFSET_MAX]
  · rw [abs_lt]
    norm_num [OFFSET_MAX]

/-- C4, amended: for every sample rate R reported by the driver and every raw
estimate f of a successful scan, the baseband error the run sanity-checks and
stores is `f - GSM_RATE / 4 = f - 1625000 / 24`, the raw estimate minus one
quarter of the GSM symbol rate, narrowed to `float` (so within a `2 ^ -24`
fraction of that difference); it does not depend on R, and the difference is
`f - R / 4` only when R is the GSM rate itself. -/
theorem offset_detect_baseband_error {σ β : Type} (D : SoapySDRDevice σ β)
    (detector : Detector β) (count0 : Nat) (offsets0 : List ℚ) (sdr : σ) (raw : ℚ)
    (hfound : (offset_detect D detector count0 offsets0 sdr).found = some raw) :
    GSM_RATE / 4 = 1625000 / 24 ∧
    (∀ i v, Event.store i v ∈ (offset_detect D detector count0 offsets0 sdr).trace →
      i = count0 ∧ v = to_float (raw - 1625000 / 24)) ∧
    (stores (offset_detect D detector count0 offsets0 sdr).trace ≠ []
      ↔ |to_float (raw - 1625000 / 24)| < OFFSET_MAX) ∧
    |to_float (raw - 1625000 / 24) - (raw - 1625000 / 24)| ≤ |raw - 1625000 / 24| / 2 ^ 24 ∧
    (raw - 1625000 / 24 = raw - D.getSampleRate sdr / 4 ↔ D.getSampleRate sdr = GSM_RATE) := by
  have hg : GSM_RATE / 4 = 1625000 / 24 := by norm_num [GSM_RATE]
  have he : baseband_error raw = to_float (raw - 1625000 / 24) := by
    unfold baseband_error; rw [hg]
  have hs := stores_trace D detector count0 offsets0 sdr
  rw [hfound] at hs
  have hmem : ∀ i v, Event.store i v ∈ (offset_detect D detector count0 offsets0 sdr).trace →
      Event.store i v ∈ stores (offset_detect D detector count0 offsets0 sdr).trace := by
    intro i v h
    simp [stores, h]
  refine ⟨hg, ?_, ?_, to_float_error _, ?_⟩
  · intro i v h
    have h2 := hmem i v h
    rw [hs] at h2
    simp only [scan_result, he] at h2
    split_ifs at h2
    · simpa using h2
    · simp at h2
  · rw [hs]
    simp only [scan_result, he, fabs_eq_abs]
    split_ifs with h <;> simp [h]
  · constructor
    · intro h
      have : D.getSampleRate sdr / 4 = GSM_RATE / 4 := by rw [hg]; linarith
      linarith
    · intro h
      rw [h, hg]

theorem offset_detect_baseband_error_witness :
    (offset_detect (simDevice 20000000 0 935000000 0) (simDetector (some 100000)) 3
      zeroOffsets 0).found = some 100000 ∧
    (∀ i v, Event.store i v ∈ (offset_detect (simDevice 20000000 0 935000000 0)
        (simDetector (some 100000)) 3 zeroOffsets 0).trace →
      i = 3 ∧ v = to_float (100000 - 1625000 / 24)) :=
  ⟨rfl,
   (offset_detect_baseband_error (simDevice 20000000 0 935000000 0) (simDetector (some 100000)) 3
      zeroOffsets 0 100000 rfl).2.1⟩

/-- C5, counterexample: a run whose detector scan finds no burst accepts no
measurement (fewer than `2 * AVG_THRESHOLD + 1 = 21`), yet it returns 0, sorts
and averages the array, and computes the ppm figure (35 ppm here). -/
theorem offset_detect_succeeds_without_measurements :
    (2 * AVG_THRESHOLD + 1 = 21) ∧
    (stores (offset_detect (simDevice 20000000 35 935000000 0) (simDetector none) 0
      zeroOffsets 0).trace).length = 0 ∧
    (offset_detect (simDevice 20000000 35 935000000 0) (simDetector none) 0
      zeroOffsets 0).ret = 0 ∧
    Event.sortOffsets ∈ (offset_detect (simDevice 20000000 35 935000000 0) (simDetector none) 0
      zeroOffsets 0).trace ∧
    Event.avgOffsets ∈ (offset_detect (simDevice 20000000 35 935000000 0) (simDetector none) 0
      zeroOffsets 0).trace ∧
    (offset_detect (simDevice 20000000 35 935000000 0) (simDetector none) 0
      zeroOffsets 0).stats.avg_offset = 0 ∧
    (offset_detect (simDevice 20000000 35 935000000 0) (simDetector none) 0
      zeroOffsets 0).total_ppm = 35 := by
  have hst : (offset_detect (simDevice 20000000 35 935000000 0) (simDetector none) 0
      zeroOffsets 0).stats.avg_offset = 0 := construct_stats_zeroOffsets
  refine ⟨rfl, ?_, rfl, mem_trace_tail _ _ _ _ _ _ (by simp), mem_trace_tail _ _ _ _ _ _ (by simp),
    hst, ?_⟩
  · rw [stores_trace, sim_found]; rfl
  · show (35 : ℚ) - ((offset_detect (simDevice 20000000 35 935000000 0) (simDetector none) 0
      zeroOffsets 0).stats.avg_offset / 935000000) * 1000000 = 35
    rw [hst]; norm_num

/-- C5, amended: `offset_detect` has no insufficient-measurements failure.
Every run accepts at most one measurement, always fewer than the minimum
viable count `2 * AVG_THRESHOLD + 1 = 21`, and every run returns 0. -/
theorem offset_detect_always_returns_zero {σ β : Type} (D : SoapySDRDevice σ β)
    (detector : Detector β) (count0 : Nat) (offsets0 : List ℚ) (sdr : σ) :
    (stores (offset_detect D detector count0 offsets0 sdr).trace).length ≤ 1 ∧
    (stores (offset_detect D detector count0 offsets0 sdr).trace).length
      < 2 * AVG_THRESHOLD + 1 ∧
    (offset_detect D detector count0 offsets0 sdr).ret = 0 := by
  have hs := stores_trace D detector count0 offsets0 sdr
  have hle : (stores (offset_detect D detector count0 offsets0 sdr).trace).length ≤ 1 := by
    rw [hs]
    rcases scan_result_events { offsets := offsets0, count := count0, notfound := 0 }
      (offset_detect D detector count0 offsets0 sdr).found with h | ⟨raw, -, h⟩ <;> simp [h]
  refine ⟨hle, ?_, rfl⟩
  have : 2 * AVG_THRESHOLD + 1 = 21 := rfl
  omega

/-- C6, failing run: with the uninitialised `count` holding 100 and a
detection of zero baseband error (raw estimate `GSM_RATE / 4`), the run stores at index 100, which is not
below `AVG_COUNT = 100`, and leaves `count` at 101. -/
theorem offset_detect_store_out_of_bounds :
    (offset_detect (simDevice 20000000 0 935000000 0) (simDetector (some (203125 / 3))) 100
      zeroOffsets 0).found = some (203125 / 3) ∧
    stores (offset_detect (simDevice 20000000 0 935000000 0) (simDetector (some (203125 / 3)))
      100 zeroOffsets 0).trace = [Event.store 100 0] ∧
    ¬ (100 < AVG_COUNT) ∧
    (offset_detect (simDevice 20000000 0 935000000 0) (simDetector (some (203125 / 3))) 100
      zeroOffsets 0).measured.count = 101 := by
  have e : baseband_error (203125 / 3) = 0 := baseband_error_quarter_rate
  refine ⟨rfl, ?_, by decide, ?_⟩
  · rw [stores_trace, sim_found]
    norm_num [scan_result, e, fabs, OFFSET_MAX]
  · rw [measured_eq, sim_found]
    norm_num [scan_result, e, fabs, OFFSET_MAX, UINT_RANGE]

/-- C7, counterexample: a run whose one detector attempt is an implausible
reject (baseband error 50000 Hz) is counted nowhere: no measurement is
accepted, `count` keeps its initial value and `notfound` stays 0, so accepted
plus rejected is 0 while one attempt was made. -/
theorem offset_detect_reject_not_counted :
    (offset_detect (simDevice 20000000 0 935000000 0) (simDetector (some (353125 / 3))) 0
      zeroOffsets 0).found = some (353125 / 3) ∧
    baseband_error (353125 / 3) = 50000 ∧
    (attempts (offset_detect (simDevice 20000000 0 935000000 0)
      (simDetector (some (353125 / 3))) 0 zeroOffsets 0).trace).length = 1 ∧
    (stores (offset_detect (simDevice 20000000 0 935000000 0)
      (simDetector (some (353125 / 3))) 0 zeroOffsets 0).trace).length = 0 ∧
    (offset_detect (simDevice 20000000 0 935000000 0) (simDetector (some (353125 / 3))) 0
      zeroOffsets 0).measured.count = 0 ∧
    (offset_detect (simDevice 20000000 0 935000000 0) (simDetector (some (353125 / 3))) 0
      zeroOffsets 0).measured.notfound = 0 ∧
    ((offset_detect (simDevice 20000000 0 935000000 0) (simDetector (some (353125 / 3))) 0
        zeroOffsets 0).measured.count : Int)
      + (offset_detect (simDevice 20000000 0 935000000 0) (simDetector (some (353125 / 3))) 0
        zeroOffsets 0).measured.notfound
      ≠ (attempts (offset_detect (simDevice 20000000 0 935000000 0)
        (simDetector (some (353125 / 3))) 0 zeroOffsets 0).trace).length := by
  have e : baseband_error (353125 / 3) = 50000 := baseband_error_50kHz
  have hc : (offset_detect (simDevice 20000000 0 935000000 0) (simDetector (some (353125 / 3))) 0
      zeroOffsets 0).measured.count = 0 := by
    rw [measured_eq, sim_found]
    norm_num [scan_result, e, fabs, OFFSET_MAX]
  have hn : (offset_detect (simDevice 20000000 0 935000000 0) (simDetector (some (353125 / 3))) 0
      zeroOffsets 0).measured.notfound = 0 := by
    rw [measured_eq, sim_found]
    norm_num [scan_result, e, fabs, OFFSET_MAX]
  have ha : (attempts (offset_detect (simDevice 20000000 0 935000000 0)
      (simDetector (some (353125 / 3))) 0 zeroOffsets 0).trace).length = 1 := by
    rw [attempts_trace]; rfl
  refine ⟨rfl, e, ha, ?_, hc, hn, ?_⟩
  · rw [stores_trace, sim_found]
    norm_num [scan_result, e, fabs, OFFSET_MAX]
  · rw [hc, hn, ha]; decide

/-- C7, amended: every run makes exactly one detector attempt. A miss raises
`notfound` from 0 to 1 and accepts nothing; an accepted measurement makes one
store, raises `count` by one (modulo `2 ^ 32`) and leaves `notfound` at 0; an
implausible reject makes no store and changes neither counter, so it is not
counted at all. Hence the stores plus `notfound` equal the one attempt made
exactly when the attempt is not an implausible reject. -/
theorem offset_detect_attempt_accounting {σ β : Type} (D : SoapySDRDevice σ β)
    (detector : Detector β) (count0 : Nat) (offsets0 : List ℚ) (sdr : σ) :
    (attempts (offset_detect D detector count0 offsets0 sdr).trace).length = 1 ∧
    (match (offset_detect D detector count0 offsets0 sdr).found with
      | none =>
        (stores (offset_detect D detector count0 offsets0 sdr).trace).length = 0 ∧
        (offset_detect D detector count0 offsets0 sdr).measured.count = count0 ∧
        (offset_detect D detector count0 offsets0 sdr).measured.notfound = 1
      | some raw =>
        if |baseband_error raw| < OFFSET_MAX then
          (stores (offset_detect D detector count0 offsets0 sdr).trace).length = 1 ∧
          (offset_detect D detector count0 offsets0 sdr).measured.count
            = (count0 + 1) % UINT_RANGE ∧
          (offset_detect D detector count0 offsets0 sdr).measured.notfound = 0
        else
          (stores (offset_detect D detector count0 offsets0 sdr).trace).length = 0 ∧
          (offset_detect D detector count0 offsets0 sdr).measured.count = count0 ∧
          (offset_detect D detector count0 offsets0 sdr).measured.notfound = 0) ∧
    (((stores (offset_detect D detector count0 offsets0 sdr).trace).length : Int)
        + (offset_detect D detector count0 offsets0 sdr).measured.notfound
        = (attempts (offset_detect D detector count0 offsets0 sdr).trace).length
      ↔ ¬ ∃ raw, (offset_detect D detector count0 offsets0 sdr).found = some raw
          ∧ ¬ |baseband_error raw| < OFFSET_MAX) := by
  have ha : (attempts (offset_detect D detector count0 offsets0 sdr).trace).length = 1 := by
    rw [attempts_trace]; rfl
  have hs := stores_trace D detector count0 offsets0 sdr
  have hm : (offset_detect D detector count0 offsets0 sdr).measured
      = (scan_result { offsets := offsets0, count := count0, notfound := 0 }
          (offset_detect D detector count0 offsets0 sdr).found).1 := rfl
  rw [ha, hs, hm]
  refine ⟨rfl, ?_, ?_⟩
  · cases (offset_detect D detector count0 offsets0 sdr).found with
    | none => simp [scan_result]
    | some raw =>
      simp only [scan_result, fabs_eq_abs]
      split_ifs <;> simp
  · cases (offset_detect D detector count0 offsets0 sdr).found with
    | none => simp [scan_result]
    | some raw =>
      simp only [scan_result, fabs_eq_abs]
      split_ifs with h <;> simp [h]

/-- C8: a window on which the detector scan reports `found = false` raises the
not-found counter by exactly one and leaves the `offsets` array and the
accepted count as they were, with no store made; in a run, `notfound` goes
from 0 to 1 and the array that reaches the statistics stage is the initial
one. -/
theorem offset_detect_not_found {σ β : Type} (D : SoapySDRDevice σ β)
    (detector : Detector β) (count0 : Nat) (offsets0 : List ℚ) (sdr : σ)
    (hfound : (offset_detect D detector count0 offsets0 sdr).found = none) :
    (∀ m : Measurements,
      (scan_result m none).1.notfound = m.notfound + 1 ∧
      (scan_result m none).1.offsets = m.offsets ∧
      (scan_result m none).1.count = m.count ∧
      (scan_result m none).2 = []) ∧
    (offset_detect D detector count0 offsets0 sdr).measured.notfound = 0 + 1 ∧
    (offset_detect D detector count0 offsets0 sdr).measured.offsets = offsets0 ∧
    (offset_detect D detector count0 offsets0 sdr).measured.count = count0 ∧
    stores (offset_detect D detector count0 offsets0 sdr).trace = [] := by
  have hs := stores_trace D detector count0 offsets0 sdr
  have hm : (offset_detect D detector count0 offsets0 sdr).measured
      = (scan_result { offsets := offsets0, count := count0, notfound := 0 }
          (offset_detect D detector count0 offsets0 sdr).found).1 := rfl
  rw [hfound] at hs hm
  rw [hs, hm]
  exact ⟨fun m => ⟨rfl, rfl, rfl, rfl⟩, rfl, rfl, rfl, rfl⟩

theorem offset_detect_not_found_witness :
    (offset_detect (simDevice 20000000 0 935000000 0) (simDetector none) 7 zeroOffsets 0).found
      = none ∧
    (offset_detect (simDevice 20000000 0 935000000 0) (simDetector none) 7
      zeroOffsets 0).measured.notfound = 0 + 1 ∧
    (offset_detect (simDevice 20000000 0 935000000 0) (simDetector none) 7
      zeroOffsets 0).measured.offsets = zeroOffsets ∧
    (offset_detect (simDevice 20000000 0 935000000 0) (simDetector none) 7
      zeroOffsets 0).measured.count = 7 ∧
    stores (offset_detect (simDevice 20000000 0 935000000 0) (simDetector none) 7
      zeroOffsets 0).trace = [] :=
  ⟨rfl,
   (offset_detect_not_found (simDevice 20000000 0 935000000 0) (simDetector none) 7
      zeroOffsets 0 rfl).2⟩

/-- C10, failing run: on a device whose stream setup returns -1 the run logs
the error and goes on: it activates the stream, reads `4 * s_len = 4476924`
samples, runs the detector, builds the statistics and returns 0. -/
theorem offset_detect_continues_after_setup_failure :
    ((simDevice 20000000 0 935000000 (-1)).setupStream 0).1 = -1 ∧
    (offset_detect (simDevice 20000000 0 935000000 (-1)) (simDetector none) 0
      zeroOffsets 0).ret = 0 ∧
    (offset_detect (simDevice 20000000 0 935000000 (-1)) (simDetector none) 0
      zeroOffsets 0).trace
      = [Event.setupStream (-1), Event.setupStreamError, Event.activateStream,
         Event.readStream 4476924, Event.scan 4476924, Event.deactivateStream,
         Event.closeStream, Event.sortOffsets, Event.avgOffsets,
         Event.getFrequencyCorrection, Event.getFrequency] := by
  refine ⟨rfl, rfl, ?_⟩
  have hw : window_request 1119231 = 4476924 := by decide
  simp [offset_detect, simDevice, simDetector, scan_result, window_length_20MHz, hw]

/-- C11, failing call: with the receiver at 900 MHz and a driver whose tune
call fails, `tune (935 MHz)` makes the driver call, reports the failure on
stderr, leaves `m_center_freq` and the hardware at 900 MHz, and still returns
1, as it does on every call. -/
theorem tune_returns_success_on_failure :
    (935000000 : ℚ) ≠ 900000000 ∧
    (simTuner false 900000000 935000000).1 = -1 ∧
    (tune (simTuner false) { dev := 900000000, m_center_freq := 900000000 } 935000000).calls
      = [935000000] ∧
    (tune (simTuner false) { dev := 900000000, m_center_freq := 900000000 } 935000000).failures
      = [935000000] ∧
    (tune (simTuner false) { dev := 900000000, m_center_freq := 900000000 }
      935000000).source.m_center_freq = 900000000 ∧
    (tune (simTuner false) { dev := 900000000, m_center_freq := 900000000 }
      935000000).source.dev = 900000000 ∧
    (tune (simTuner false) { dev := 900000000, m_center_freq := 900000000 } 935000000).ret = 1 ∧
    (∀ (s : Source ℚ) (freq : ℚ), (tune (simTuner false) s freq).ret = 1) := by
  have hne : (935000000 : ℚ) ≠ 900000000 := by norm_num
  refine ⟨hne, rfl, ?_, ?_, ?_, ?_, ?_, ?_⟩
  · simp [tune, simTuner, hne]
  · simp [tune, simTuner, hne]
  · simp [tune, simTuner, hne]
  · simp [tune, simTuner, hne]
  · simp [tune, simTuner, hne]
  · intro s freq
    unfold tune
    split_ifs <;> rfl

/-- C12: `tune (f)` with `f` equal to the stored centre frequency makes no
driver tune call and leaves the source object as it was. With `f` different
it makes exactly one driver call, for `f`; the stored centre frequency becomes
`f` when that call succeeds (result not negative) and stays what it was when
the call fails. So after a successful `tune (f)` a second `tune (f)` makes no
driver call and changes nothing. -/
theorem tune_frame {δ : Type} (xtrx_tune : δ → ℚ → Int × δ) (s : Source δ) (f : ℚ) :
    (f = s.m_center_freq →
      (tune xtrx_tune s f).calls = [] ∧ (tune xtrx_tune s f).source = s) ∧
    (f ≠ s.m_center_freq →
      (tune xtrx_tune s f).calls = [f] ∧
      (tune xtrx_tune s f).source.dev = (xtrx_tune s.dev f).2) ∧
    (f ≠ s.m_center_freq → 0 ≤ (xtrx_tune s.dev f).1 →
      (tune xtrx_tune s f).source.m_center_freq = f) ∧
    (f ≠ s.m_center_freq → (xtrx_tune s.dev f).1 < 0 →
      (tune xtrx_tune s f).source.m_center_freq = s.m_center_freq) ∧
    ((tune xtrx_tune s f).source.m_center_freq ≠ s.m_center_freq →
      f ≠ s.m_center_freq ∧ 0 ≤ (xtrx_tune s.dev f).1 ∧
      (tune xtrx_tune s f).source.m_center_freq = f) ∧
    ((f = s.m_center_freq ∨ 0 ≤ (xtrx_tune s.dev f).1) →
      (tune xtrx_tune (tune xtrx_tune s f).source f).calls = [] ∧
      (tune xtrx_tune (tune xtrx_tune s f).source f).source = (tune xtrx_tune s f).source) := by
  have hsame : ∀ t : Source δ, f = t.m_center_freq →
      (tune xtrx_tune t f).calls = [] ∧ (tune xtrx_tune t f).source = t := by
    intro t h
    simp [tune, h]
  have hok : f ≠ s.m_center_freq → 0 ≤ (xtrx_tune s.dev f).1 →
      (tune xtrx_tune s f).source.m_center_freq = f := by
    intro h hr
    simp [tune, h, not_lt.mpr hr]
  have hfail : f ≠ s.m_center_freq → (xtrx_tune s.dev f).1 < 0 →
      (tune xtrx_tune s f).source.m_center_freq = s.m_center_freq := by
    intro h hr
    simp [tune, h, hr]
  refine ⟨hsame s, ?_, hok, hfail, ?_, ?_⟩
  · intro h
    unfold tune
    split_ifs <;> exact ⟨rfl, rfl⟩
  · intro hch
    by_cases h : f = s.m_center_freq
    · exact absurd (by rw [(hsame s h).2]) hch
    · by_cases hr : (xtrx_tune s.dev f).1 < 0
      · exact absurd (hfail h hr) hch
      · exact ⟨h, not_lt.mp hr, hok h (not_lt.mp hr)⟩
  · intro hcase
    apply hsame
    by_cases h : f = s.m_center_freq
    · rw [(hsame s h).2]; exact h
    · rcases hcase with h2 | hr
      · exact absurd h2 h
      · exact (hok h hr).symm

/-- C13, counterexample: with every other step succeeding, an initial error
of 5 ppm and a frequency correction setter that fails, `main` returns
`EXIT_FAILURE` right after that setter and never reaches `offset_detect`. -/
theorem main_device_correction_failure_is_fatal :
    main_device { antenna := none, gain := 0, ppm_error := 5, bts_scan := false }
        { n_devices := 1, make_ok := true, antennas := ["LNAW"], setBandwidth := 0,
          setSampleRate := 0, setGain := 0, setFrequencyCorrection := -1, setFrequency := 0,
          offset_detect := 0, c0_detect := 0 }
      = (EXIT_FAILURE,
          [MainStep.setBandwidth, MainStep.setSampleRate, MainStep.setFrequencyCorrection]) ∧
    EXIT_FAILURE ≠ 0 ∧
    MainStep.offset_detect ∉
      (main_device { antenna := none, gain := 0, ppm_error := 5, bts_scan := false }
        { n_devices := 1, make_ok := true, antennas := ["LNAW"], setBandwidth := 0,
          setSampleRate := 0, setGain := 0, setFrequencyCorrection := -1, setFrequency := 0,
          offset_detect := 0, c0_detect := 0 }).2 := by
  have h : main_device { antenna := none, gain := 0, ppm_error := 5, bts_scan := false }
        { n_devices := 1, make_ok := true, antennas := ["LNAW"], setBandwidth := 0,
          setSampleRate := 0, setGain := 0, setFrequencyCorrection := -1, setFrequency := 0,
          offset_detect := 0, c0_detect := 0 }
      = (EXIT_FAILURE,
          [MainStep.setBandwidth, MainStep.setSampleRate, MainStep.setFrequencyCorrection]) := by
    simp [main_device, antenna_found]
  refine ⟨h, by decide, ?_⟩
  rw [h]; decide

/-- C13, amended: in every invocation of `main` in which all other setup
steps succeed, the result of the gain setter is ignored, so its failure is not
fatal, and when the frequency correction setter is not called (zero initial
ppm error) or succeeds, `main` proceeds to `offset_detect` or to the band scan
and returns its result. A failure of the frequency correction setter with a
non-zero initial ppm error is fatal: `main` returns `EXIT_FAILURE` and
reaches neither. -/
theorem main_device_setter_failures (a : MainArgs) (d : DeviceReplies)
    (hdev : d.n_devices ≠ 0) (hmake : d.make_ok = true) (hbw : d.setBandwidth = 0)
    (hsr : d.setSampleRate = 0) (hant : antenna_found d.antennas a.antenna = true)
    (hfreq : d.setFrequency = 0) :
    (∀ g : Int, main_device a { d with setGain := g } = main_device a d) ∧
    ((a.ppm_error = 0 ∨ d.setFrequencyCorrection = 0) →
      (main_device a d).1 = (if a.bts_scan = false then d.offset_detect else d.c0_detect) ∧
      (if a.bts_scan = false then MainStep.offset_detect else MainStep.c0_detect)
        ∈ (main_device a d).2) ∧
    ((a.ppm_error ≠ 0 ∧ d.setFrequencyCorrection ≠ 0) →
      (main_device a d).1 = EXIT_FAILURE ∧
      MainStep.offset_detect ∉ (main_device a d).2 ∧
      MainStep.c0_detect ∉ (main_device a d).2) := by
  refine ⟨fun g => rfl, ?_, ?_⟩
  · intro hfc
    have hno : ¬ (a.ppm_error ≠ 0 ∧ d.setFrequencyCorrection ≠ 0) := by
      rintro ⟨h1, h2⟩
      rcases hfc with h | h
      · exact h1 h
      · exact h2 h
    simp only [main_device, if_neg hdev, hmake, hbw, hsr, hant, hfreq, if_neg hno]
    by_cases hb : a.bts_scan = false
    · simp [hb]
    · simp [hb]
  · intro hfc
    simp only [main_device, if_neg hdev, hmake, hbw, hsr, hant, if_pos hfc]
    refine ⟨by simp, ?_, ?_⟩ <;> split_ifs <;> simp

theorem main_device_setter_failures_witness :
    (main_device { antenna := none, gain := 20, ppm_error := 0, bts_scan := false }
        { n_devices := 1, make_ok := true, antennas := ["LNAW"], setBandwidth := 0,
          setSampleRate := 0, setGain := -1, setFrequencyCorrection := 0, setFrequency := 0,
          offset_detect := 0, c0_detect := 0 }).1 = 0 ∧
    MainStep.offset_detect ∈
      (main_device { antenna := none, gain := 20, ppm_error := 0, bts_scan := false }
        { n_devices := 1, make_ok := true, antennas := ["LNAW"], setBandwidth := 0,
          setSampleRate := 0, setGain := -1, setFrequencyCorrection := 0, setFrequency := 0,
          offset_detect := 0, c0_detect := 0 }).2 :=
  (main_device_setter_failures
    { antenna := none, gain := 20, ppm_error := 0, bts_scan := false }
    { n_devices := 1, make_ok := true, antennas := ["LNAW"], setBandwidth := 0,
      setSampleRate := 0, setGain := -1, setFrequencyCorrection := 0, setFrequency := 0,
      offset_detect := 0, c0_detect := 0 }
    (by decide) rfl rfl rfl rfl rfl).2.1 (Or.inl rfl)

/-- C15, failing runs: with the device listing the one antenna "LNAW", a
request for "LNAW" leaves `antenna_found` false and `main` exits with
"Antenna not found", while a request for the absent "XYZ" sets the flag. In
general, for a requested antenna the flag is true exactly when some listed
name differs from it. -/
theorem antenna_found_inverted :
    antenna_found ["LNAW"] (some "LNAW") = false ∧
    antenna_found ["LNAW"] (some "XYZ") = true ∧
    main_device { antenna := some "LNAW", gain := 0, ppm_error := 0, bts_scan := false }
        { n_devices := 1, make_ok := true, antennas := ["LNAW"], setBandwidth := 0,
          setSampleRate := 0, setGain := 0, setFrequencyCorrection := 0, setFrequency := 0,
          offset_detect := 0, c0_detect := 0 }
      = (EXIT_FAILURE,
          [MainStep.setBandwidth, MainStep.setSampleRate, MainStep.antennaNotFound]) ∧
    (∀ (names : List String) (a : String),
      antenna_found names (some a) = true ↔ ∃ name ∈ names, name ≠ a) := by
  have h1 : antenna_found ["LNAW"] (some "LNAW") = false := by
    have := antenna_loop_false_iff "LNAW" ["LNAW"]
    simp only [antenna_found]
    cases hc : antenna_loop (some "LNAW") ["LNAW"] false
    · rfl
    · rw [hc] at this
      simp at this
  have h2 : antenna_found ["LNAW"] (some "XYZ") = true := by
    simp only [antenna_found]
    rw [antenna_loop_false_iff]
    exact ⟨"LNAW", by simp, by decide⟩
  refine ⟨h1, h2, ?_, fun names a => antenna_loop_false_iff a names⟩
  simp [main_device, h1]

/-- C14: for every 32-bit unsigned `num_samples = n`, a run of `fill` in which
every driver receive succeeds and no `assert(avail >= csm)` fails returns 0
after exactly `max(1, ceil(n / 8192))` receive calls; every commit to the ring
buffer is of at most 8192 samples and at most the available count reported by
the `poke` just before it; every `num_samples -= 8192` is taken on a value of
at least 8192, so it never wraps; and the committed counts sum to `n`. The
function is total, so the run ends. -/
theorem fill_chunks (env : FillEnv) (n : Nat) (hn : n < UINT_RANGE)
    (hrecv : ∀ rc, FillEvent.recv rc ∈ (fill env n).log → 0 ≤ rc)
    (hassert : ∀ a c, FillEvent.assertFailed a c ∉ (fill env n).log) :
    UINT_RANGE = 2 ^ 32 ∧
    (fill env n).ret = some 0 ∧
    recv_calls (fill env n).log = max 1 ((n + 8191) / 8192) ∧
    (((n + 8191) / 8192 : Nat) : ℤ) = ⌈(n : ℚ) / 8192⌉ ∧
    (∀ a c, FillEvent.commit a c ∈ (fill env n).log → c ≤ 8192 ∧ c ≤ a) ∧
    (∀ m, FillEvent.sub m ∈ (fill env n).log → 8192 ≤ m) ∧
    committed (fill env n).log = n := by
  obtain ⟨hret, hcalls, hcommits, hsubs, hsum⟩ := fill_loop_spec env n hn 0 0 hrecv hassert
  exact ⟨rfl, hret, hcalls, ceil_div_8192 n, hcommits, hsubs, hsum⟩

theorem fill_chunks_witness :
    (20000 : Nat) < UINT_RANGE ∧
    (fill simFillEnv 20000).ret = some 0 ∧
    recv_calls (fill simFillEnv 20000).log = max 1 ((20000 + 8191) / 8192) ∧
    committed (fill simFillEnv 20000).log = 20000 :=
  have h := fill_chunks simFillEnv 20000 (by norm_num [UINT_RANGE])
    (fun rc hrc => by
      rw [fill_sim_20000] at hrc
      simp at hrc
      omega)
    (fun a c hac => by
      rw [fill_sim_20000] at hac
      simp at hac)
  ⟨by norm_num [UINT_RANGE], h.2.1, h.2.2.1, h.2.2.2.2.2.2⟩

/-- C16: for every `unsigned int` decimation `d` passed to the decimation
constructor of `xtrx_source`, the stored `m_decimation` is even and lies in
`[4, 256]`; with `c` the value of `d` with its lowest bit cleared (`d & ~1`),
it is `c` when `4 <= c <= 256`, 4 when `c < 4`, and 256 when `c > 256`. -/
theorem m_decimation_clamped (d : Nat) (hd : d < UINT_RANGE) :
    d &&& (UINT_RANGE - 2) = d - d % 2 ∧
    xtrx_source_m_decimation d % 2 = 0 ∧
    4 ≤ xtrx_source_m_decimation d ∧
    xtrx_source_m_decimation d ≤ 256 ∧
    (4 ≤ d - d % 2 ∧ d - d % 2 ≤ 256 → xtrx_source_m_decimation d = d - d % 2) ∧
    (d - d % 2 < 4 → xtrx_source_m_decimation d = 4) ∧
    (256 < d - d % 2 → xtrx_source_m_decimation d = 256) := by
  have hc : d &&& (UINT_RANGE - 2) = d - d % 2 := land_clear_low_bit d hd
  unfold xtrx_source_m_decimation
  simp only [hc]
  refine ⟨trivial, ?_, ?_, ?_, ?_, ?_, ?_⟩
  · split_ifs <;> omega
  · split_ifs <;> omega
  · split_ifs <;> omega
  · intro h
    split_ifs <;> omega
  · intro h
    split_ifs <;> omega
  · intro h
    split_ifs <;> omega

theorem m_decimation_clamped_witness :
    (33 : Nat) < UINT_RANGE ∧
    xtrx_source_m_decimation 33 % 2 = 0 ∧
    xtrx_source_m_decimation 33 = 32 :=
  have h := m_decimation_clamped 33 (by norm_num [UINT_RANGE])
  ⟨by norm_num [UINT_RANGE], h.2.1, h.2.2.2.2.1 ⟨by norm_num, by norm_num⟩⟩

end Kalibrate
